import Mathlib

/-!
Verification of the apifuzz fuzz engine against its specification.

This file shallowly embeds the Rust sources of the apifuzz repository
(crates apifuzz-runner, apifuzz-core and the apifuzz CLI) in Lean 4 and
proves or refutes the specification claims about them.

Modelling conventions:
- serde_json values become the inductive `Json`; integers that Rust reads
  through `as_i64` are modelled as `Json.num : Int`, floating point numbers
  as `Json.fnum : Rat` (no claim below depends on float rounding).
- Rust `HashMap`/`HashSet` become association lists / lists of keys with
  insert-overwrite semantics; `HashSet::insert` returns whether the key was
  new, exactly as the dedup logic of checks.rs uses it.
- The random number generator is an oracle `Nat → Nat` consumed at an index
  that is threaded through generation; `gen_range lo..=hi` on an empty
  range is a panic in Rust and is modelled as `none`.
- The external JSON parser and the Draft-7 validator (out of scope per the
  specification) are parameters of the check pipeline.
- `u16`/`u64` counters are modelled as `Nat`, `i64` values as `Int`,
  process exit codes (`i32`) as `Int`.
-/

/- Batteries marks the rational operations `@[irreducible]`; witnesses
below evaluate accumulator statistics on concrete runs, so restore
definitional transparency locally. -/
attribute [local semireducible] Rat.add Rat.mul Rat.sub Rat.inv

/-- JSON values as used by serde_json, restricted to what the fuzzer
manipulates: `num` holds integer numbers (read via `as_i64`) and `fnum`
holds non-integer numbers. -/
inductive Json where
  | null : Json
  | bool (b : Bool) : Json
  | num (n : Int) : Json
  | fnum (q : Rat) : Json
  | str (s : String) : Json
  | arr (elems : List Json) : Json
  | obj (fields : List (String × Json)) : Json

/-- Lookup of a key in a JSON object field list (serde_json `Map::get`;
keys of a parsed map are unique). -/
def jget (fields : List (String × Json)) (k : String) : Option Json :=
  match fields with
  | [] => none
  | (k2, v) :: rest => if k2 = k then some v else jget rest k

/-- `value.get(key)` on a serde_json value: `Some` only for objects. -/
def Json.get : Json → String → Option Json
  | .obj fields, k => jget fields k
  | _, _ => none

/-- `value.as_str()`. -/
def Json.asStr : Json → Option String
  | .str s => some s
  | _ => none

/-- `value.as_i64()`: only integer numbers convert. -/
def Json.asI64 : Json → Option Int
  | .num n => some n
  | _ => none

/-- `value.as_u64()`: non-negative integer numbers convert. -/
def Json.asU64 : Json → Option Nat
  | .num n => if 0 ≤ n then some n.toNat else none
  | _ => none

/-- `value.as_f64()`: any number converts. -/
def Json.asF64 : Json → Option Rat
  | .num n => some (n : Rat)
  | .fnum q => some q
  | _ => none

/-- `value.as_bool()`. -/
def Json.asBool : Json → Option Bool
  | .bool b => some b
  | _ => none

/-- `value.as_array()`. -/
def Json.asArray : Json → Option (List Json)
  | .arr elems => some elems
  | _ => none

/-- `value.as_object()` (just the field list). -/
def Json.asObject : Json → Option (List (String × Json))
  | .obj fields => some fields
  | _ => none

/-- `value.is_string()`. -/
def Json.isString : Json → Bool
  | .str _ => true
  | _ => false

/-- Boolean test that a list of JSON values contains a given integer
number; used to state (non-)membership facts in a kernel-computable way. -/
def containsNum (l : List Json) (n : Int) : Bool :=
  l.any (fun j => match j with | .num m => m == n | _ => false)

theorem mem_of_containsNum (l : List Json) (n : Int) (h : containsNum l n = true) :
    Json.num n ∈ l := by
  induction l with
  | nil => simp [containsNum] at h
  | cons x xs ih =>
    simp only [containsNum, List.any_cons, Bool.or_eq_true] at h
    rcases h with h | h
    · cases x <;> simp_all
    · exact List.mem_cons_of_mem _ (ih h)

theorem not_mem_of_not_containsNum (l : List Json) (n : Int)
    (h : containsNum l n = false) : Json.num n ∉ l := by
  induction l with
  | nil => simp
  | cons x xs ih =>
    simp only [containsNum, List.any_cons, Bool.or_eq_false_iff] at h
    intro hmem
    rcases List.mem_cons.mp hmem with rfl | hmem
    · simp_all
    · exact ih h.2 hmem

/-- Insertion into a sorted list, ascending. -/
def insertSorted (x : Int) : List Int → List Int
  | [] => [x]
  | y :: ys => if x ≤ y then x :: y :: ys else y :: insertSorted x ys

/-- Model of Rust `Vec::sort` on `i64` values (ascending; stability is
irrelevant on plain integers, so insertion sort computes the same list). -/
def sortInts (l : List Int) : List Int := l.foldr insertSorted []

/-- Model of Rust `Vec::dedup`: removes consecutive duplicates. -/
def dedupConsec : List Int → List Int
  | [] => []
  | [x] => [x]
  | x :: y :: rest =>
    if x = y then dedupConsec (y :: rest) else x :: dedupConsec (y :: rest)

/-- Rust `"a".repeat(n)` for a single character. -/
def charRepeat (c : Char) (n : Nat) : String :=
  String.mk (List.replicate n c)

/-! ## datagen.rs — deterministic boundary enumeration -/

/-- `MAX_DEPTH` from datagen.rs. -/
def MAX_DEPTH : Nat := 20

/-- `MAX_STRING_LEN` from datagen.rs. -/
def MAX_STRING_LEN : Nat := 10000

/-- `str.starts_with(p)` on the character sequence (kernel-reducible model
of `String.startsWith`). -/
def strStarts (s p : String) : Bool :=
  decide (s.toList.take p.toList.length = p.toList)

/-- Drop the first `n` characters (kernel-reducible model of
`String.drop`). -/
def strDropN (s : String) (n : Nat) : String :=
  String.mk (s.toList.drop n)

/-- Character-wise uppercasing (kernel-reducible model of
`String.toUpper` / `str.to_uppercase()`). -/
def strUpper (s : String) : String :=
  String.mk (s.toList.map Char.toUpper)

/-- Character-wise lowercasing (kernel-reducible model of
`String.toLower` / `str.to_lowercase()`). -/
def strLower (s : String) : String :=
  String.mk (s.toList.map Char.toLower)

/-- `datagen::resolve_ref`: strip the `#/components/schemas/` prefix and
look the name up in the components map. -/
def resolve_ref (refStr : String) (components : Json) : Option Json :=
  if strStarts refStr "#/components/schemas/" then
    components.get (strDropN refStr "#/components/schemas/".length)
  else
    none

/-- `datagen::casing_variants`: upper / lower / Title variants that differ
from the original, plus leading and trailing whitespace variants. -/
def casing_variants (s : String) : List Json :=
  let upper := strUpper s
  let lower := strLower s
  let title : String :=
    match lower.toList with
    | [] => ""
    | c :: cs => String.mk (c.toUpper :: cs)
  (if upper ≠ s then [Json.str upper] else []) ++
  (if lower ≠ s then [Json.str lower] else []) ++
  (if title ≠ s ∧ title ≠ upper ∧ title ≠ lower then [Json.str title] else []) ++
  [Json.str (" " ++ s), Json.str (s ++ " ")]

/-- `datagen::integer_boundaries`: the dense −10..=10 band, application
thresholds, 32/64-bit edges, JavaScript safe-integer edges, then schema
minimum/maximum with their out-of-range neighbours; sorted, deduplicated. -/
def integer_boundaries (schema : Json) : List Json :=
  let band : List Int := (List.range 21).map (fun i => (i : Int) - 10)
  let thresholds : List Int := [100, 255, 256, 1000, 1024, 4096, 10000, 65535, 65536]
  let bits32 : List Int :=
    [-2147483648, -2147483649, 2147483647, 2147483648, 4294967295, 4294967296]
  let bits64 : List Int := [-9223372036854775808, 9223372036854775807]
  let jsSafe : List Int := [9007199254740991, 9007199254740992]
  let minPart : List Int :=
    match (schema.get "minimum").bind Json.asI64 with
    | some minVal => [minVal, minVal - 1]
    | none => []
  let maxPart : List Int :=
    match (schema.get "maximum").bind Json.asI64 with
    | some maxVal => [maxVal, maxVal + 1]
    | none => []
  let values := band ++ thresholds ++ bits32 ++ bits64 ++ jsSafe ++ minPart ++ maxPart
  (dedupConsec (sortInts values)).map Json.num

/-- `datagen::number_boundaries`: float bug-zone constants plus schema
minimum/maximum with ±1 and ±ε neighbours (f64 constants as rationals). -/
def number_boundaries (schema : Json) : List Json :=
  let eps : Rat := 1 / 2 ^ 52
  let minPositive : Rat := 1 / 2 ^ 1022
  let base : List Json :=
    [Json.fnum 0, Json.fnum 0, Json.fnum (-1), Json.fnum 1, Json.fnum (1/10),
     Json.fnum (1/2), Json.fnum (1/1000), Json.fnum (5/1000), Json.fnum (9999/100),
     Json.fnum (99999/1000), Json.fnum eps, Json.fnum minPositive,
     Json.fnum (10 ^ 38), Json.fnum (10 ^ 39), Json.fnum (10 ^ 308),
     Json.fnum (-(10 ^ 308 : Rat))]
  let minPart : List Json :=
    match (schema.get "minimum").bind Json.asF64 with
    | some minVal => [Json.fnum minVal, Json.fnum (minVal - 1), Json.fnum (minVal - eps)]
    | none => []
  let maxPart : List Json :=
    match (schema.get "maximum").bind Json.asF64 with
    | some maxVal => [Json.fnum maxVal, Json.fnum (maxVal + 1), Json.fnum (maxVal + eps)]
    | none => []
  base ++ minPart ++ maxPart

/-- Format-specific invalid strings added by `datagen::string_boundaries`. -/
def string_format_boundaries (format : Option String) : List Json :=
  match format with
  | some "email" =>
    [Json.str "not-an-email", Json.str "a@b.c", Json.str "user@localhost",
     Json.str "user+tag@example.com", Json.str "\"user\"@example.com"]
  | some "uri" | some "url" =>
    [Json.str "not-a-url", Json.str "javascript:alert(1)",
     Json.str "file:///etc/passwd", Json.str "data:text/html,<h1>test</h1>"]
  | some "date" =>
    [Json.str "0000-00-00", Json.str "0000-01-01", Json.str "0001-01-01",
     Json.str "9999-12-31", Json.str "10000-01-01", Json.str "not-a-date",
     Json.str "2024-00-01", Json.str "2024-13-01", Json.str "2024-01-00",
     Json.str "2024-01-32", Json.str "2024-02-30", Json.str "2024-02-29",
     Json.str "2023-02-29", Json.str "1900-02-29", Json.str "2000-02-29",
     Json.str "-0001-01-01", Json.str "2024/01/15", Json.str "01-15-2024",
     Json.str "20240115"]
  | some "date-time" =>
    [Json.str "0000-01-01T00:00:00Z", Json.str "0001-01-01T00:00:00Z",
     Json.str "9999-12-31T23:59:59Z", Json.str "not-a-datetime",
     Json.str "1970-01-01T00:00:00Z", Json.str "1969-12-31T23:59:59Z",
     Json.str "2000-01-01T00:00:00Z", Json.str "2038-01-19T03:14:07Z",
     Json.str "2038-01-19T03:14:08Z", Json.str "2016-12-31T23:59:60Z",
     Json.str "2024-01-15T24:00:00Z", Json.str "2024-01-15T12:00:00.0Z",
     Json.str "2024-01-15T12:00:00.000000Z",
     Json.str "2024-01-15T12:00:00.000000000Z",
     Json.str "2024-01-15T12:00:00.9999999999Z",
     Json.str "2024-01-15T12:00:00+00:00", Json.str "2024-01-15T12:00:00-00:00",
     Json.str "2024-01-15T12:00:00+14:00", Json.str "2024-01-15T12:00:00-12:00",
     Json.str "2024-01-15T12:00:00+99:99", Json.str "2024-01-15T12:00:00",
     Json.str "2024-01-15 12:00:00Z"]
  | some "uuid" =>
    [Json.str "not-a-uuid", Json.str "00000000-0000-0000-0000-000000000000",
     Json.str "ffffffff-ffff-ffff-ffff-ffffffffffff",
     Json.str "FFFFFFFF-FFFF-FFFF-FFFF-FFFFFFFFFFFF",
     Json.str "550e8400-E29B-41D4-A716-446655440000",
     Json.str "550e8400e29b41d4a716446655440000",
     Json.str "550e8400-e29b-41d4-a716",
     Json.str "550e8400-e29b-41d4-a716-446655440000-extra",
     Json.str "550e84-00e29b-41d4a716-446655440000",
     Json.str "\x7b550e8400-e29b-41d4-a716-446655440000\x7d",
     Json.str "urn:uuid:550e8400-e29b-41d4-a716-446655440000"]
  | some "time" =>
    [Json.str "00:00:00", Json.str "23:59:59", Json.str "24:00:00",
     Json.str "23:59:60", Json.str "25:00:00", Json.str "12:60:00",
     Json.str "12:00:60", Json.str "12:00:00Z", Json.str "12:00:00+09:00",
     Json.str "12:00:00.000000000Z"]
  | some "duration" =>
    [Json.str "P0D", Json.str "PT0S", Json.str "P1D", Json.str "PT1H30M",
     Json.str "P999999D", Json.str "P-1D", Json.str "not-a-duration"]
  | _ => []

/-- `datagen::string_boundaries`: universal string boundaries, format
boundaries, then schema minLength/maxLength boundaries (capped at 10000). -/
def string_boundaries (schema : Json) : List Json :=
  let universal : List Json :=
    [Json.str "", Json.str " ", Json.str "  \t\n  ",
     Json.str "0", Json.str "1", Json.str "-1", Json.str "true",
     Json.str "false", Json.str "null", Json.str "undefined", Json.str "NaN",
     Json.str "Infinity", Json.str "-Infinity", Json.str "None",
     Json.str "abc\x00def", Json.str "\x00",
     Json.str "﻿data", Json.str "a​b", Json.str "‮abc",
     Json.str "�",
     Json.str "line1\r\nline2", Json.str "value\r\nX-Injected: true",
     Json.str "\x7b\x7b7*7\x7d\x7d", Json.str "$\x7b7*7\x7d",
     Json.str "#\x7b7*7\x7d",
     Json.str "../../../etc/passwd", Json.str "..\\..\\..\\windows\\system32",
     Json.str (charRepeat (Char.ofNat 97) 10000),
     Json.str "\x7b\"key\":\"value\"\x7d", Json.str "[1,2,3]"]
  let format := (schema.get "format").bind Json.asStr
  let minPart : List Json :=
    match (schema.get "minLength").bind Json.asU64 with
    | some minLen =>
      let capped := min minLen MAX_STRING_LEN
      [Json.str (charRepeat (Char.ofNat 97) capped)] ++
        (if capped > 0 then [Json.str (charRepeat (Char.ofNat 97) (capped - 1))] else [])
    | none => []
  let maxPart : List Json :=
    match (schema.get "maxLength").bind Json.asU64 with
    | some maxLen =>
      let capped := min maxLen MAX_STRING_LEN
      [Json.str (charRepeat (Char.ofNat 97) capped),
       Json.str (charRepeat (Char.ofNat 97) (capped + 1))]
    | none => []
  universal ++ string_format_boundaries format ++ minPart ++ maxPart

/-- `datagen::boundaries_inner`, depth recursion carried as remaining fuel
(`fuel = 21 − depth`; the source returns `[]` once `depth > MAX_DEPTH`). -/
def boundaries_inner (components : Json) : Nat → Json → List Json
  | 0, _ => []
  | fuel + 1, schema =>
    match (schema.get "$ref").bind Json.asStr with
    | some refStr =>
      match resolve_ref refStr components with
      | some resolved => boundaries_inner components fuel resolved
      | none => []
    | none =>
      match (schema.get "enum").bind Json.asArray with
      | some enumValues =>
        enumValues ++
          enumValues.flatMap (fun ev =>
            match ev.asStr with
            | some s => casing_variants s
            | none => []) ++
          [Json.str "__INVALID_ENUM_VALUE__"]
      | none =>
        match (schema.get "anyOf").bind Json.asArray with
        | some variants =>
          variants.flatMap (fun v =>
            if (v.get "type").bind Json.asStr = some "null" then []
            else boundaries_inner components fuel v)
        | none =>
          match (schema.get "oneOf").bind Json.asArray with
          | some variants =>
            variants.flatMap (fun v =>
              if (v.get "type").bind Json.asStr = some "null" then []
              else boundaries_inner components fuel v)
          | none =>
            match (schema.get "type").bind Json.asStr with
            | some "integer" => integer_boundaries schema
            | some "number" => number_boundaries schema
            | some "string" => string_boundaries schema
            | some "boolean" => [Json.bool true, Json.bool false]
            | some "null" => [Json.null]
            | _ => []

/-- `datagen::boundaries`: entry point at depth 0 (fuel 21). -/
def boundaries (schema components : Json) : List Json :=
  boundaries_inner components (MAX_DEPTH + 1) schema

/-- `datagen::object_property_boundaries`: resolve a root `$ref` then
collect per-property boundary lists, skipping empty ones. -/
def object_property_boundaries (schema components : Json) :
    List (String × List Json) :=
  let resolved :=
    match (schema.get "$ref").bind Json.asStr with
    | some refStr =>
      match resolve_ref refStr components with
      | some r => some r
      | none => none
    | none => some schema
  match resolved with
  | none => []
  | some r =>
    match (r.get "properties").bind Json.asObject with
    | none => []
    | some props =>
      props.foldr (fun (p : String × Json) acc =>
        let bv := boundaries p.2 components
        if !bv.isEmpty then (p.1, bv) :: acc else acc) []

/-! ## datagen.rs — random generation

The RNG is modelled as an oracle `Nat → Nat` read at a strictly increasing
index: each primitive draw consumes one index.  `gen_range` over an empty
range panics in Rust and is therefore `none` here; every other primitive
returns `some`. -/

/-- Insert-or-overwrite into an association list (serde_json object
`insert` / `extend` semantics, preserving the position of existing keys). -/
def assocInsert (l : List (String × Json)) (k : String) (v : Json) :
    List (String × Json) :=
  match l with
  | [] => [(k, v)]
  | (k2, v2) :: rest =>
    if k2 = k then (k, v) :: rest else (k2, v2) :: assocInsert rest k v

/-- Model of `rng.gen_range(lo..=hi)` on integers: uniform support over the
inclusive range, panic (`none`) when the range is empty. -/
def genRangeInt (oracle : Nat → Nat) (idx : Nat) (lo hi : Int) :
    Option (Int × Nat) :=
  if lo ≤ hi then some (lo + ((oracle idx) % ((hi - lo).toNat + 1) : Nat), idx + 1)
  else none

/-- Model of `rng.gen_range(lo..=hi)` on unsigned sizes. -/
def genRangeNat (oracle : Nat → Nat) (idx : Nat) (lo hi : Nat) :
    Option (Nat × Nat) :=
  if lo ≤ hi then some (lo + (oracle idx) % (hi - lo + 1), idx + 1)
  else none

/-- Model of the half-open `rng.gen_range(lo..hi)`. -/
def genRangeExcl (oracle : Nat → Nat) (idx : Nat) (lo hi : Nat) :
    Option (Nat × Nat) :=
  if lo < hi then some (lo + (oracle idx) % (hi - lo), idx + 1)
  else none

/-- Model of `rng.gen_bool(p)` for `0 < p < 1`: one draw, both outcomes
reachable (`denom` only shapes which oracle values map to `true`). -/
def genBool (oracle : Nat → Nat) (idx : Nat) (denom : Nat) : Bool × Nat :=
  (decide ((oracle idx) % denom = 0), idx + 1)

/-- The alphanumeric alphabet `CHARS` of `datagen::random_alnum`. -/
def alnumChars : List Char :=
  "abcdefghijklmnopqrstuvwxyzABCDEFGHIJKLMNOPQRSTUVWXYZ0123456789".toList

/-- `datagen::random_alnum`: `len` uniform picks from the 62-char alphabet. -/
def random_alnum (oracle : Nat → Nat) : Nat → Nat → List Char × Nat
  | idx, 0 => ([], idx)
  | idx, len + 1 =>
    let c := alnumChars.getD ((oracle idx) % alnumChars.length) (Char.ofNat 97)
    let (rest, idx2) := random_alnum oracle (idx + 1) len
    (c :: rest, idx2)

/-- Hexadecimal rendering zero-padded to `width` (Rust `{:0wx}` format). -/
def toHexPad (n width : Nat) : String :=
  let ds := Nat.toDigits 16 n
  String.mk (List.replicate (width - ds.length) (Char.ofNat 48) ++ ds)

/-- `datagen::gen_string`: shaped strings for known formats, otherwise a
random alphanumeric string of length in `[minLength, max(maxLength, minLength)]`
(defaults 1..20, capped at `MAX_STRING_LEN`).  Total: every draw succeeds. -/
def gen_string (schema : Json) (oracle : Nat → Nat) (idx : Nat) :
    Option (Json × Nat) :=
  match (schema.get "format").bind Json.asStr with
  | some "email" =>
    match genRangeExcl oracle idx 1 9999 with
    | some (n, idx2) => some (Json.str ("user" ++ toString n ++ "@example.com"), idx2)
    | none => none
  | some "uri" | some "url" => some (Json.str "https://example.com", idx)
  | some "date" => some (Json.str "2024-01-15", idx)
  | some "date-time" => some (Json.str "2024-01-15T12:00:00Z", idx)
  | some "uuid" =>
    let a := (oracle idx) % 2 ^ 32
    let b := (oracle (idx + 1)) % 2 ^ 16
    let c := (oracle (idx + 2)) % 2 ^ 16 % 2 ^ 12
    let d := (oracle (idx + 3)) % 2 ^ 16 % 2 ^ 14 + 2 ^ 15
    let e := (oracle (idx + 4)) % 2 ^ 64 % 2 ^ 48
    some (Json.str (toHexPad a 8 ++ "-" ++ toHexPad b 4 ++ "-4" ++ toHexPad c 3 ++
      "-" ++ toHexPad d 4 ++ "-" ++ toHexPad e 12), idx + 5)
  | _ =>
    let minLen :=
      match (schema.get "minLength").bind Json.asU64 with
      | some v => min v MAX_STRING_LEN
      | none => 1
    let maxLen :=
      match (schema.get "maxLength").bind Json.asU64 with
      | some v => min v MAX_STRING_LEN
      | none => 20
    match genRangeNat oracle idx minLen (max maxLen minLen) with
    | some (len, idx2) =>
      let (cs, idx3) := random_alnum oracle idx2 len
      some (Json.str (String.mk cs), idx3)
    | none => none

/-- `datagen::gen_integer`: a 20% edge-value draw, otherwise uniform in
`[minimum, maximum]` with defaults −1000 and 1000.  The uniform branch
panics (`none`) when the resolved minimum exceeds the resolved maximum. -/
def gen_integer (schema : Json) (oracle : Nat → Nat) (idx : Nat) :
    Option (Json × Nat) :=
  let hasMin := ((schema.get "minimum").bind Json.asI64).isSome
  let hasMax := ((schema.get "maximum").bind Json.asI64).isSome
  let minv := ((schema.get "minimum").bind Json.asI64).getD (-1000)
  let maxv := ((schema.get "maximum").bind Json.asI64).getD 1000
  let (edge, idx1) := genBool oracle idx 5
  if edge then
    let edges0 : List Int :=
      if hasMin && hasMax then [minv, maxv]
      else [0, -1, 1, -9223372036854775808, 9223372036854775807]
    let edges :=
      if hasMin && hasMax && decide (minv ≤ 0 ∧ 0 ≤ maxv) && !edges0.contains 0
      then edges0 ++ [0] else edges0
    match genRangeExcl oracle idx1 0 edges.length with
    | some (k, idx2) => some (Json.num (edges.getD k 0), idx2)
    | none => none
  else
    match genRangeInt oracle idx1 minv maxv with
    | some (n, idx2) => some (Json.num n, idx2)
    | none => none

/-- `datagen::gen_number`: uniform float in `[minimum, maximum]` (defaults
0 and 1000); the float sampler panics on an empty range.  The sampled value
is a rational stand-in for the f64 draw. -/
def gen_number (schema : Json) (oracle : Nat → Nat) (idx : Nat) :
    Option (Json × Nat) :=
  let minv := ((schema.get "minimum").bind Json.asF64).getD 0
  let maxv := ((schema.get "maximum").bind Json.asF64).getD 1000
  if minv ≤ maxv then
    some (Json.fnum (minv + (maxv - minv) * ((oracle idx) % 1001 : Nat) / 1000), idx + 1)
  else none

/-- The count draw of `datagen::gen_array`:
`rng.gen_range(minItems..=max(maxItems, minItems))` with defaults 0 and 3 —
the upper bound is clamped to at least the lower bound. -/
def gen_array_count (schema : Json) (oracle : Nat → Nat) (idx : Nat) :
    Option (Nat × Nat) :=
  let minItems := ((schema.get "minItems").bind Json.asU64).getD 0
  let maxItems := ((schema.get "maxItems").bind Json.asU64).getD 3
  genRangeNat oracle idx minItems (max maxItems minItems)

/-- The `anyOf`/`oneOf` branch of `datagen::generate_inner`: pick one
non-null variant (or return `Null` when none remain).  `rec` is
`generate_inner` at the already-incremented depth (the source passes
`depth + 1` when entering this branch). -/
def generate_variant (rec : Json → Nat → Option (Json × Nat))
    (oracle : Nat → Nat) (variants : List Json) (idx : Nat) :
    Option (Json × Nat) :=
  let nonNull := variants.filter
    (fun v => !decide ((v.get "type").bind Json.asStr = some "null"))
  if nonNull.isEmpty then some (Json.null, idx)
  else
    match genRangeExcl oracle idx 0 nonNull.length with
    | some (k, idx2) => rec (nonNull.getD k Json.null) idx2
    | none => none

/-- The `allOf` branch: generate every subschema at the incremented depth
(`rec`), merging object results. -/
def generate_all_of (rec : Json → Nat → Option (Json × Nat)) :
    List Json → List (String × Json) → Nat → Option (Json × Nat)
  | [], merged, idx => some (Json.obj merged, idx)
  | sub :: rest, merged, idx =>
    match rec sub idx with
    | some (v, idx2) =>
      match v with
      | .obj fields =>
        generate_all_of rec rest
          (fields.foldl (fun acc kv => assocInsert acc kv.1 kv.2) merged) idx2
      | _ => generate_all_of rec rest merged idx2
    | none => none

/-- Item loop of `gen_array`: each item is generated by `rec`
(`generate_inner` at the depth `gen_array` was entered with). -/
def gen_array_items (rec : Json → Nat → Option (Json × Nat)) :
    Json → Nat → Nat → Option (Json × Nat)
  | _, 0, idx => some (Json.arr [], idx)
  | itemsSchema, count + 1, idx =>
    match rec itemsSchema idx with
    | some (v, idx2) =>
      match gen_array_items rec itemsSchema count idx2 with
      | some (Json.arr vs, idx3) => some (Json.arr (v :: vs), idx3)
      | other => other
    | none => none

/-- `datagen::gen_array`: count draw, then that many items (the source
calls it with `depth + 1`, carried here by `rec`). -/
def gen_array (rec : Json → Nat → Option (Json × Nat)) (oracle : Nat → Nat)
    (schema : Json) (idx : Nat) : Option (Json × Nat) :=
  match gen_array_count schema oracle idx with
  | some (count, idx2) =>
    let itemsSchema :=
      match schema.get "items" with
      | some s => s
      | none => Json.obj [("type", Json.str "string")]
    gen_array_items rec itemsSchema count idx2
  | none => none

/-- Property loop of `gen_object` (short-circuit: the coin is only tossed
for optional properties). -/
def gen_object_props (rec : Json → Nat → Option (Json × Nat))
    (oracle : Nat → Nat) (required : List String) :
    List (String × Json) → List (String × Json) → Nat → Option (Json × Nat)
  | [], acc, idx => some (Json.obj acc, idx)
  | (key, propSchema) :: rest, acc, idx =>
    if required.contains key then
      match rec propSchema idx with
      | some (v, idx2) =>
        gen_object_props rec oracle required rest (assocInsert acc key v) idx2
      | none => none
    else
      let (include2, idx1) := genBool oracle idx 2
      if include2 then
        match rec propSchema idx1 with
        | some (v, idx2) =>
          gen_object_props rec oracle required rest (assocInsert acc key v) idx2
        | none => none
      else
        gen_object_props rec oracle required rest acc idx1

/-- `datagen::gen_object`: required properties always generated, optional
ones behind a coin flip (the source calls it with `depth + 1`, carried by
`rec`). -/
def gen_object (rec : Json → Nat → Option (Json × Nat)) (oracle : Nat → Nat)
    (schema : Json) (idx : Nat) : Option (Json × Nat) :=
  let required : List String :=
    match (schema.get "required").bind Json.asArray with
    | some arr => arr.foldr (fun v acc =>
        match v.asStr with
        | some s => s :: acc
        | none => acc) []
    | none => []
  match (schema.get "properties").bind Json.asObject with
  | some props => gen_object_props rec oracle required props [] idx
  | none => some (Json.obj [], idx)

/-- Continuation of `generate_inner` after the `$ref` / non-empty `enum`
branches: `anyOf` / `oneOf` / `allOf`, then type-directed generation.
`rec` is `generate_inner` at the incremented depth. -/
def generate_dispatch (rec : Json → Nat → Option (Json × Nat))
    (oracle : Nat → Nat) (schema : Json) (idx : Nat) : Option (Json × Nat) :=
  match (schema.get "anyOf").bind Json.asArray with
  | some variants => generate_variant rec oracle variants idx
  | none =>
    match (schema.get "oneOf").bind Json.asArray with
    | some variants => generate_variant rec oracle variants idx
    | none =>
      match (schema.get "allOf").bind Json.asArray with
      | some allOf => generate_all_of rec allOf [] idx
      | none =>
        match (schema.get "type").bind Json.asStr with
        | some "string" => gen_string schema oracle idx
        | some "integer" => gen_integer schema oracle idx
        | some "number" => gen_number schema oracle idx
        | some "boolean" =>
          let (b, idx1) := genBool oracle idx 2
          some (Json.bool b, idx1)
        | some "array" => gen_array rec oracle schema idx
        | some "object" => gen_object rec oracle schema idx
        | some "null" => some (Json.null, idx)
        | _ =>
          if (schema.get "properties").isSome then
            gen_object rec oracle schema idx
          else if (schema.get "items").isSome then
            gen_array rec oracle schema idx
          else
            let (cs, idx1) := random_alnum oracle idx 8
            some (Json.str (String.mk cs), idx1)

/-- One depth level of `datagen::generate_inner`: the `$ref` and `enum`
branches, falling through to `generate_dispatch`.  `rec` is the generator
at the incremented depth. -/
def generate_body (rec : Json → Nat → Option (Json × Nat)) (components : Json)
    (oracle : Nat → Nat) (schema : Json) (idx : Nat) : Option (Json × Nat) :=
  match (schema.get "$ref").bind Json.asStr with
  | some refStr =>
    match resolve_ref refStr components with
    | some resolved => rec resolved idx
    | none => some (Json.null, idx)
  | none =>
    match (schema.get "enum").bind Json.asArray with
    | some enumValues =>
      if enumValues.length ≠ 0 then
        match genRangeExcl oracle idx 0 enumValues.length with
        | some (k, idx2) => some (enumValues.getD k Json.null, idx2)
        | none => none
      else
        generate_dispatch rec oracle schema idx
    | none => generate_dispatch rec oracle schema idx

/-- `datagen::generate_inner`, depth carried as remaining fuel
(`fuel = 21 − depth`; the source returns `Null` once `depth > MAX_DEPTH`,
and passes `depth + 1` — here one unit of fuel less — wherever it
recurses). -/
def generate_inner (components : Json) (oracle : Nat → Nat) :
    Nat → Json → Nat → Option (Json × Nat)
  | 0, _, idx => some (Json.null, idx)
  | fuel + 1, schema, idx =>
    generate_body (generate_inner components oracle fuel) components oracle
      schema idx

/-- `datagen::generate`: entry point at depth 0 (fuel 21). -/
def generate (schema components : Json) (oracle : Nat → Nat) (idx : Nat) :
    Option (Json × Nat) :=
  generate_inner components oracle (MAX_DEPTH + 1) schema idx

/-! ## native/spec.rs — OpenAPI extraction -/

/-- Association-list insert with overwrite (HashMap keyed by status code). -/
def natAssocInsert {α : Type} (l : List (Nat × α)) (k : Nat) (v : α) :
    List (Nat × α) :=
  match l with
  | [] => [(k, v)]
  | (k2, v2) :: rest =>
    if k2 = k then (k, v) :: rest else (k2, v2) :: natAssocInsert rest k v

/-- Association-list lookup (HashMap keyed by status code). -/
def natAssocGet {α : Type} (l : List (Nat × α)) (k : Nat) : Option α :=
  match l with
  | [] => none
  | (k2, v) :: rest => if k2 = k then some v else natAssocGet rest k

/-- Rust `str::parse::<u16>`: optional leading `+`, digits only, ≤ 65535. -/
def parseU16 (s : String) : Option Nat :=
  let t := if strStarts s "+" then strDropN s 1 else s
  if t.length > 0 ∧ t.toList.all Char.isDigit then
    let n := t.toList.foldl (fun a c => a * 10 + (c.toNat - 48)) 0
    if n ≤ 65535 then some n else none
  else none

/-- `ParamLocation` from native/spec.rs. -/
inductive ParamLocation where
  | path : ParamLocation
  | query : ParamLocation
  | header : ParamLocation
  deriving DecidableEq

/-- `Parameter` from native/spec.rs. -/
structure Parameter where
  name : String
  location : ParamLocation
  schema : Json
  required : Bool

/-- Modelled from the spec: the `ResponseHeader` record of the Spec
Extractor ("Fields: name; required flag; optional JSON Schema for its
value").  Its Rust definition is referenced by checks.rs and the tests but
is absent from the provided native/spec.rs source. -/
structure ResponseHeader where
  name : String
  required : Bool
  schema : Option Json

/-- `Operation` from native/spec.rs.  The `response_headers` field is
referenced by checks.rs; its declaration and extraction are modelled from
the spec (see `ResponseHeader`). -/
structure Operation where
  method : String
  path : String
  parameters : List Parameter
  request_body_schema : Option Json
  expected_statuses : List Nat
  response_schemas : List (Nat × Json)
  response_content_types : List (Nat × List String)
  response_headers : List (Nat × List ResponseHeader)

/-- `spec::resolve_refs_inner`, depth recursion carried as remaining fuel
(`fuel = 21 − depth`; the source returns the schema unchanged once
`depth > 20`).  A `$ref` holding a resolvable string is replaced by the
recursive resolution of its target; otherwise all values are resolved. -/
def resolve_refs_inner (components : Json) : Nat → Json → Json
  | 0, s => s
  | fuel + 1, s =>
    match s with
    | .obj fields =>
      match (jget fields "$ref").bind Json.asStr with
      | some refStr =>
        match resolve_ref refStr components with
        | some resolved => resolve_refs_inner components fuel resolved
        | none => .obj fields
      | none =>
        .obj (fields.map (fun kv => (kv.1, resolve_refs_inner components fuel kv.2)))
    | .arr elems => .arr (elems.map (fun e => resolve_refs_inner components fuel e))
    | other => other

/-- `spec::resolve_refs`: entry point at depth 0 (fuel 21). -/
def resolve_refs (schema components : Json) : Json :=
  resolve_refs_inner components (MAX_DEPTH + 1) schema

/-- `spec::parse_parameter`: name and location are mandatory, the schema
defaults to `{"type": "string"}`, `required` defaults to `false`. -/
def parse_parameter (param : Json) : Option Parameter :=
  match (param.get "name").bind Json.asStr with
  | none => none
  | some name =>
    match (param.get "in").bind Json.asStr with
    | some "path" => some ⟨name, .path, paramSchema param, paramRequired param⟩
    | some "query" => some ⟨name, .query, paramSchema param, paramRequired param⟩
    | some "header" => some ⟨name, .header, paramSchema param, paramRequired param⟩
    | _ => none
where
  paramSchema (param : Json) : Json :=
    (param.get "schema").getD (Json.obj [("type", Json.str "string")])
  paramRequired (param : Json) : Bool :=
    ((param.get "required").bind Json.asBool).getD false

/-- Modelled from the spec: header capture of the Spec Extractor —
"capture headers (`required` default `false`, optional schema)" for each
response status.  The corresponding lines of native/spec.rs are absent
from the provided source (only their callers and tests are present). -/
def extract_response_headers (respObj : Json) : Option (List ResponseHeader) :=
  match (respObj.get "headers").bind Json.asObject with
  | some headerFields =>
    some (headerFields.map (fun kv =>
      { name := kv.1,
        required := ((kv.2.get "required").bind Json.asBool).getD false,
        schema := kv.2.get "schema" }))
  | none => none

/-- One status entry of the response fold of `spec::extract_operations`:
declared content types, the resolved `application/json` schema, and
(modelled from the spec) the declared response headers. -/
def extract_responses_step (components : Json)
    (acc : List (Nat × Json) × List (Nat × List String) ×
      List (Nat × List ResponseHeader)) (kv : String × Json) :
    List (Nat × Json) × List (Nat × List String) × List (Nat × List ResponseHeader) :=
  let (schemas, ctypes, rheaders) := acc
  match parseU16 kv.1 with
  | none => acc
  | some status =>
    let (schemas2, ctypes2) :=
      match (kv.2.get "content").bind Json.asObject with
      | some content =>
        let types := content.map Prod.fst
        let ctypes2 :=
          if !types.isEmpty then natAssocInsert ctypes status types else ctypes
        let schemas2 :=
          match (jget content "application/json").bind (fun ct => ct.get "schema") with
          | some schema =>
            natAssocInsert schemas status (resolve_refs schema components)
          | none => schemas
        (schemas2, ctypes2)
      | none => (schemas, ctypes)
    let rheaders2 :=
      match extract_response_headers kv.2 with
      | some hs => natAssocInsert rheaders status hs
      | none => rheaders
    (schemas2, ctypes2, rheaders2)

/-- The per-status response fold of `spec::extract_operations`. -/
def extract_responses (components : Json)
    (responses : List (String × Json)) :
    List (Nat × Json) × List (Nat × List String) × List (Nat × List ResponseHeader) :=
  responses.foldl (extract_responses_step components) ([], [], [])

/-- The HTTP methods recognised by `spec::extract_operations`. -/
def specMethods : List String := ["get", "post", "put", "delete", "patch"]

/-- Build one `Operation` from a path item and a method entry
(`spec::extract_operations`, loop body). -/
def extract_one_operation (components : Json) (path : String)
    (pathItem : Json) (m : String) (operation : Json) : Operation :=
  let parameters :=
    ([pathItem.get "parameters", operation.get "parameters"].filterMap id).flatMap
      (fun source =>
        match source.asArray with
        | some params => params.filterMap parse_parameter
        | none => [])
  let request_body_schema :=
    (operation.get "requestBody").bind (fun rb =>
      (rb.get "content").bind (fun c =>
        (c.get "application/json").bind (fun ct => ct.get "schema")))
  let responsesObj := (operation.get "responses").bind Json.asObject
  let expected_statuses :=
    match responsesObj with
    | some r => r.filterMap (fun kv => parseU16 kv.1)
    | none => []
  let (schemas, ctypes, rheaders) :=
    match responsesObj with
    | some responses => extract_responses components responses
    | none => ([], [], [])
  { method := strUpper m,
    path := path,
    parameters := parameters,
    request_body_schema := request_body_schema,
    expected_statuses := expected_statuses,
    response_schemas := schemas,
    response_content_types := ctypes,
    response_headers := rheaders }

/-- `spec::extract_operations`. -/
def extract_operations (spec : Json) : List Operation :=
  let components := (spec.get "components").getD Json.null
  match (spec.get "paths").bind Json.asObject with
  | none => []
  | some paths =>
    paths.flatMap (fun pv =>
      specMethods.filterMap (fun m =>
        match pv.2.get m with
        | some operation =>
          some (extract_one_operation components pv.1 pv.2 m operation)
        | none => none))

/-! ## native/checks.rs — the response validation pipeline -/

/-- `StatusExpectation` from native/phases.rs. -/
inductive StatusExpectation where
  | SuccessExpected (codes : List Nat) : StatusExpectation
  | AnyDeclared (codes : List Nat) : StatusExpectation
  | Rejection : StatusExpectation

/-- `RawFailure` from apifuzz-core schema.rs (validator finding). -/
structure RawFailure where
  failure_type : String
  operation : String
  title : String
  message : String
  case_id : Option String
  severity : String
  status_code : Option Nat
  elapsed : Option Rat
  deadline : Option Rat
  validation_message : Option String
  document : Option String
  position : Option Nat
  lineno : Option Nat
  colno : Option Nat

/-- `checks::make_failure`. -/
def make_failure (failure_type operation title message case_id severity : String)
    (status_code : Option Nat) : RawFailure :=
  { failure_type := failure_type,
    operation := operation,
    title := title,
    message := message,
    case_id := some case_id,
    severity := severity,
    status_code := status_code,
    elapsed := none,
    deadline := none,
    validation_message := none,
    document := none,
    position := none,
    lineno := none,
    colno := none }

/-- The external collaborators of the pipeline, out of scope per the
specification: the JSON parser (`serde_json::from_str` on response bodies),
the Draft-7 validator factory (`jsonschema::validator_for`, `none` when the
schema is rejected; the returned function enumerates validation errors),
and float parsing for response-header coercion (`str::parse::<f64>`). -/
structure ExternalIface where
  parseJson : String → Option Json
  validator_for : Json → Option (Json → List String)
  parseF64 : String → Option Rat

/-- Rust `str::parse::<i64>`: optional sign, digits only, within i64. -/
def parseI64 (s : String) : Option Int :=
  let sign : Int := if strStarts s "-" then -1 else 1
  let t := if strStarts s "-" ∨ strStarts s "+" then strDropN s 1 else s
  if t.length > 0 ∧ t.toList.all Char.isDigit then
    let n : Int := sign * (t.toList.foldl (fun a c => a * 10 + (c.toNat - 48)) 0 : Nat)
    if -(2 ^ 63) ≤ n ∧ n ≤ 2 ^ 63 - 1 then some n else none
  else none

/-- Case-insensitive response-header lookup (reqwest `HeaderMap::get`
normalises header names). -/
def headerGet (headers : List (String × String)) (name : String) : Option String :=
  (headers.find? (fun kv => strLower kv.1 = strLower name)).map Prod.snd

/-- The spec-gap dedup key `"op:status:check"` shared by the checks
(`seen_spec_gaps` entries). -/
def gap_key (op : String) (status : Nat) (check : String) : String :=
  op ++ ":" ++ toString status ++ ":" ++ check

/-- The media-type part of a Content-Type header value:
`ct.split(';').next().unwrap_or("").trim()`. -/
def mediaTypeOf (ct : String) : String :=
  ((ct.splitOn ";").headD "").trim

/-- Zero-pad a decimal string on the left. -/
def padZeros (s : String) (width : Nat) : String :=
  String.mk (List.replicate (width - s.length) (Char.ofNat 48)) ++ s

/-- Rust `{:.3}` fixed-point formatting of the (rational) elapsed time. -/
def fmt3 (q : Rat) : String :=
  let scaled : Int := round (q * 1000)
  let sign := if scaled < 0 then "-" else ""
  let a := scaled.natAbs
  sign ++ toString (a / 1000) ++ "." ++ padZeros (toString (a % 1000)) 3

/-- Debug formatting of a `Vec<u16>` (used in expectation messages). -/
def fmtNatList (l : List Nat) : String :=
  "[" ++ String.intercalate ", " (l.map toString) ++ "]"

/-- `CheckInput` from native/checks.rs (the dedup set is threaded
separately since it is the only mutable part). -/
structure CheckInput where
  status_code : Nat
  body_text : String
  content_type : Option String
  response_headers : List (String × String)
  elapsed : Rat
  url : String
  operation_label : String
  case_id : String
  expectation : StatusExpectation
  op : Operation
  response_time_limit : Option Rat

/-- `checks::check_status_expectation`: 5xx is left to the ServerError
health check; otherwise the phase-derived expectation decides. -/
def check_status_expectation (input : CheckInput) : List RawFailure :=
  if 500 ≤ input.status_code ∧ input.status_code < 600 then []
  else
    match input.expectation with
    | .SuccessExpected expected =>
      if !expected.contains input.status_code then
        if 200 ≤ input.status_code ∧ input.status_code < 300 then
          [make_failure "StatusSatisfyExpectation" input.operation_label
            "Unexpected success status code"
            ("Got " ++ toString input.status_code ++ ", expected one of " ++
              fmtNatList expected ++
              " (valid input should return declared success code)")
            input.case_id "medium" (some input.status_code)]
        else
          [make_failure "StatusSatisfyExpectation" input.operation_label
            "Valid input rejected"
            ("Got " ++ toString input.status_code ++ ", expected one of " ++
              fmtNatList expected ++ " (spec-compliant input was rejected)")
            input.case_id "high" (some input.status_code)]
      else []
    | .AnyDeclared declared =>
      if !declared.contains input.status_code then
        [make_failure "StatusSatisfyExpectation" input.operation_label
          "Undeclared status code"
          ("Got " ++ toString input.status_code ++ ", not in declared statuses " ++
            fmtNatList declared)
          input.case_id "medium" (some input.status_code)]
      else []
    | .Rejection =>
      if 200 ≤ input.status_code ∧ input.status_code < 300 then
        [make_failure "StatusSatisfyExpectation" input.operation_label
          "Invalid input accepted"
          ("Type-confused request returned " ++ toString input.status_code ++ " on " ++
            input.url ++ " (expected 4xx rejection)")
          input.case_id "medium" (some input.status_code)]
      else []

/-- The coercion step of `checks::validate_header_value`: the header string
is converted to the schema-declared type (`integer → i64`, `number → f64`,
`boolean` from the literals, anything else kept as a string). -/
def coerce_header_value (ext : ExternalIface) (type_str value_str : String) :
    Option Json :=
  match type_str with
  | "integer" => (parseI64 value_str).map Json.num
  | "number" => (ext.parseF64 value_str).map Json.fnum
  | "boolean" =>
    if value_str = "true" then some (Json.bool true)
    else if value_str = "false" then some (Json.bool false)
    else none
  | _ => some (Json.str value_str)

/-- `checks::validate_header_value`, continued: report a type mismatch when
coercion fails, otherwise validate the coerced value. -/
def validate_header_value (ext : ExternalIface) (operation_label case_id : String)
    (status : Nat) (header_name value_str : String) (schema : Json) :
    List RawFailure :=
  match coerce_header_value ext (((schema.get "type").bind Json.asStr).getD "")
      value_str with
  | none =>
    [make_failure "HeaderSatisfyExpectation" operation_label
      "Response header type mismatch"
      ("Header " ++ header_name ++ " value \"" ++ value_str ++
        "\" cannot be parsed as " ++ (((schema.get "type").bind Json.asStr).getD ""))
      case_id "medium" (some status)]
  | some val =>
    match ext.validator_for schema with
    | some validate =>
      if !((validate val).take 3).isEmpty then
        [make_failure "HeaderSatisfyExpectation" operation_label
          "Response header schema violation"
          ("Header " ++ header_name ++ " value \"" ++ value_str ++ "\": " ++
            String.intercalate "; " ((validate val).take 3))
          case_id "medium" (some status)]
      else []
    | none => []

/-- The 2xx spec-gap branch of the Content-Type check: emit a deduplicated
low-severity warning when no content types are declared. -/
def content_type_gap (input : CheckInput) (seen : List String) :
    List RawFailure × List String :=
  if 200 ≤ input.status_code ∧ input.status_code < 300 then
    if gap_key input.operation_label input.status_code "ct_missing" ∈ seen then
      ([], seen)
    else
      ([make_failure "HeaderSatisfyExpectation" input.operation_label
        "No content types declared in spec"
        ("Status " ++ toString input.status_code ++
          " has no content types declared in spec, not validated")
        input.case_id "low" (some input.status_code)],
       gap_key input.operation_label input.status_code "ct_missing" :: seen)
  else ([], seen)

/-- The Content-Type section of `checks::check_header_expectation`. -/
def content_type_check (input : CheckInput) (seen : List String) :
    List RawFailure × List String :=
  match natAssocGet input.op.response_content_types input.status_code with
  | some expected_types =>
    if !expected_types.isEmpty then
      match input.content_type with
      | some actual_ct =>
        if !expected_types.any (fun t => t = mediaTypeOf actual_ct) then
          ([make_failure "HeaderSatisfyExpectation" input.operation_label
            "Unexpected Content-Type"
            ("Got \"" ++ mediaTypeOf actual_ct ++ "\", expected one of " ++
              String.intercalate ", " expected_types)
            input.case_id "medium" (some input.status_code)], seen)
        else ([], seen)
      | none =>
        ([make_failure "HeaderSatisfyExpectation" input.operation_label
          "Missing Content-Type header"
          ("No Content-Type header, expected one of " ++
            String.intercalate ", " expected_types)
          input.case_id "medium" (some input.status_code)], seen)
    else content_type_gap input seen
  | none => content_type_gap input seen

/-- The declared-response-headers section of
`checks::check_header_expectation` (required presence + value schema). -/
def declared_headers_check (ext : ExternalIface) (input : CheckInput) :
    List RawFailure :=
  match natAssocGet input.op.response_headers input.status_code with
  | some expected_headers =>
    expected_headers.flatMap (fun hdr =>
      if hdr.required && (headerGet input.response_headers hdr.name).isNone then
        [make_failure "HeaderSatisfyExpectation" input.operation_label
          "Required response header missing"
          ("Header " ++ hdr.name ++ " is required for status " ++
            toString input.status_code ++ " but not present")
          input.case_id "medium" (some input.status_code)]
      else
        match headerGet input.response_headers hdr.name, hdr.schema with
        | some value_str, some schema =>
          validate_header_value ext input.operation_label input.case_id
            input.status_code hdr.name value_str schema
        | _, _ => [])
  | none => []

/-- `checks::check_header_expectation`: Content-Type versus the declared
media types, then the declared response headers. -/
def check_header_expectation (ext : ExternalIface) (input : CheckInput)
    (seen : List String) : List RawFailure × List String :=
  let ct := content_type_check input seen
  (ct.1 ++ declared_headers_check ext input, ct.2)

/-- `schema.as_object().is_some_and(|o| !o.is_empty())`: the stored schema
is an object with at least one field. -/
def schema_is_nonempty_object (schema : Json) : Bool :=
  match schema.asObject with
  | some o => !o.isEmpty
  | none => false

/-- The MIME-compliance test of `checks::check_body_expectation`: the
Content-Type declares JSON but the non-empty body does not parse. -/
def mime_violation (ext : ExternalIface) (input : CheckInput) : Bool :=
  match input.content_type with
  | some ct =>
    decide (mediaTypeOf ct = "application/json") && !input.body_text.isEmpty &&
      (ext.parseJson input.body_text).isNone
  | none => false

/-- `checks::check_body_expectation`: MIME compliance first (early return),
then JSON-Schema validation and the two body spec-gap warnings. -/
def check_body_expectation (ext : ExternalIface) (input : CheckInput)
    (seen : List String) : List RawFailure × List String :=
  if mime_violation ext input then
    ([make_failure "BodySatisfyExpectation" input.operation_label
      "Response body is not valid JSON"
      ("Content-Type is application/json but body is not valid JSON: " ++
        (input.body_text.take 200))
      input.case_id "high" (some input.status_code)], seen)
  else
    match natAssocGet input.op.response_schemas input.status_code with
    | some schema =>
      if schema_is_nonempty_object schema then
        match ext.parseJson input.body_text with
        | some body_val =>
          match ext.validator_for schema with
          | some validate =>
            if !((validate body_val).take 5).isEmpty then
              ([{ make_failure "BodySatisfyExpectation" input.operation_label
                    "Response body does not match schema"
                    (String.intercalate "; " ((validate body_val).take 5))
                    input.case_id "medium" (some input.status_code) with
                  validation_message :=
                    some (String.intercalate "; " ((validate body_val).take 5)) }],
               seen)
            else ([], seen)
          | none => ([], seen)
        | none =>
          if !input.body_text.isEmpty then
            ([make_failure "BodySatisfyExpectation" input.operation_label
              "Response body is not valid JSON"
              ("Expected JSON matching schema, got: " ++ input.body_text.take 200)
              input.case_id "medium" (some input.status_code)], seen)
          else ([], seen)
      else
        if 200 ≤ input.status_code ∧ input.status_code < 300 then
          if gap_key input.operation_label input.status_code "schema_empty" ∈ seen then
            ([], seen)
          else
            ([make_failure "BodySatisfyExpectation" input.operation_label
              "Response schema is empty"
              ("Status " ++ toString input.status_code ++
                " has empty schema \x7b\x7d, response body not validated")
              input.case_id "low" (some input.status_code)],
             gap_key input.operation_label input.status_code "schema_empty" :: seen)
        else ([], seen)
    | none =>
      if (200 ≤ input.status_code ∧ input.status_code < 300) ∧ ¬ input.body_text.isEmpty then
        if gap_key input.operation_label input.status_code "schema_missing" ∈ seen then
          ([], seen)
        else
          ([make_failure "BodySatisfyExpectation" input.operation_label
            "No response schema defined"
            ("Status " ++ toString input.status_code ++
              " has no response schema in spec, response body not validated")
            input.case_id "low" (some input.status_code)],
           gap_key input.operation_label input.status_code "schema_missing" :: seen)
      else ([], seen)

/-- The ServerError health check of `checks::run_checks`: a 5xx status is
always a critical finding. -/
def server_error_check (input : CheckInput) : List RawFailure :=
  if 500 ≤ input.status_code ∧ input.status_code < 600 then
    [make_failure "ServerError" input.operation_label "Server error"
      (toString input.status_code ++ " on " ++ input.url)
      input.case_id "critical" (some input.status_code)]
  else []

/-- The response-time health check of `checks::run_checks`. -/
def response_time_check (input : CheckInput) : List RawFailure :=
  match input.response_time_limit with
  | some limit =>
    if input.elapsed > limit then
      [{ make_failure "ResponseTimeExceeded" input.operation_label
           "Response time limit exceeded"
           (fmt3 input.elapsed ++ "s > " ++ fmt3 limit ++ "s on " ++ input.url)
           input.case_id "medium" (some input.status_code) with
         elapsed := some input.elapsed,
         deadline := some limit }]
    else []
  | none => []

/-- `checks::run_checks`: ServerError and response-time health checks, then
the status / header / body expectation checks, in source order; the
spec-gap dedup set is threaded through the header and body checks. -/
def run_checks (ext : ExternalIface) (input : CheckInput) (seen : List String) :
    List RawFailure × List String :=
  let hd := check_header_expectation ext input seen
  let bd := check_body_expectation ext input hd.2
  (server_error_check input ++ response_time_check input ++
    check_status_expectation input ++ hd.1 ++ bd.1, bd.2)

/-! ## apifuzz-core — severity, failures, verdict policy -/

/-- `Severity` from verdict/severity.rs (derived `Ord`: declaration order). -/
inductive Severity where
  | Info : Severity
  | Warning : Severity
  | Error : Severity
  | Critical : Severity
  deriving DecidableEq

/-- Rank realising the derived total order on `Severity`. -/
def Severity.rank : Severity → Nat
  | .Info => 0
  | .Warning => 1
  | .Error => 2
  | .Critical => 3

/-- `Severity::exit_code`: Warning exits 1 only in strict mode. -/
def Severity.exit_code (s : Severity) (strict : Bool) : Int :=
  match s with
  | .Info => 0
  | .Warning => if strict then 1 else 0
  | .Error => 1
  | .Critical => 2

/-- `FailureType` from verdict/failure.rs. -/
inductive FailureType where
  | ServerError : FailureType
  | Crash : FailureType
  | Timeout : FailureType
  | SchemaViolation : FailureType
  | AuthError : FailureType
  | RateLimit : FailureType
  | StatusCodeConformance : FailureType
  | NegativeTestAccepted : FailureType
  | ContentTypeMismatch : FailureType
  | UnexpectedError : FailureType
  deriving DecidableEq

/-- `FailureType::default_severity`. -/
def FailureType.default_severity : FailureType → Severity
  | .ServerError | .Crash | .Timeout => .Critical
  | .SchemaViolation | .RateLimit => .Warning
  | .StatusCodeConformance | .NegativeTestAccepted | .ContentTypeMismatch => .Warning
  | .AuthError | .UnexpectedError => .Error

/-- `RequestSnapshot` from verdict/failure.rs. -/
structure RequestSnapshot where
  method : String
  url : String
  headers : List (String × String)
  body : Option String

/-- `ResponseSnapshot` from verdict/failure.rs. -/
structure ResponseSnapshot where
  status_code : Nat
  headers : List (String × String)
  body : Option String
  latency_ms : Nat

/-- `Failure` from verdict/failure.rs (a classified failure). -/
structure Failure where
  id : String
  method : String
  path : String
  status_code : Nat
  expected_status : Option Nat
  failure_type : FailureType
  severity : Severity
  request : RequestSnapshot
  response : Option ResponseSnapshot
  context : List (String × String)

/-- `VerdictPolicy` from verdict/policy.rs. -/
structure VerdictPolicy where
  strict : Bool
  ignore_status_codes : List Nat
  ignore_failure_types : List FailureType
  min_severity : Severity

/-- `VerdictPolicy::default`: strict, nothing ignored, Warning threshold. -/
def VerdictPolicy.default : VerdictPolicy :=
  { strict := true,
    ignore_status_codes := [],
    ignore_failure_types := [],
    min_severity := .Warning }

/-- `VerdictPolicy::should_report`: drop ignored status codes, ignored
failure types, and severities below the minimum. -/
def VerdictPolicy.should_report (policy : VerdictPolicy) (failure : Failure) : Bool :=
  if policy.ignore_status_codes.contains failure.status_code then false
  else if policy.ignore_failure_types.contains failure.failure_type then false
  else if failure.severity.rank < policy.min_severity.rank then false
  else true

/-- `VerdictPolicy::filter`. -/
def VerdictPolicy.filter (policy : VerdictPolicy) (failures : List Failure) :
    List Failure :=
  failures.filter (fun f => policy.should_report f)

/-- `VerdictPolicy::exit_code`: highest severity exit code, 0 when empty. -/
def VerdictPolicy.exit_code (policy : VerdictPolicy) (failures : List Failure) : Int :=
  if failures.isEmpty then 0
  else ((failures.map (fun f => f.severity.exit_code policy.strict)).max?).getD 0

/-- `VerdictStatus` from verdict/policy.rs. -/
inductive VerdictStatus where
  | Pass : VerdictStatus
  | Fail : VerdictStatus
  deriving DecidableEq

/-- `Verdict` from verdict/policy.rs. -/
structure Verdict where
  status : VerdictStatus
  exit_code : Int
  reason : String

/-- `VerdictPolicy::verdict`: Pass exactly when the exit code is 0; the
reason counts failures by severity. -/
def VerdictPolicy.verdict (policy : VerdictPolicy) (failures : List Failure) :
    Verdict :=
  let exit_code := policy.exit_code failures
  let status : VerdictStatus := if exit_code = 0 then .Pass else .Fail
  let reason :=
    if failures.isEmpty then "No failures detected"
    else
      let critical := (failures.filter (fun f => f.severity = .Critical)).length
      let error := (failures.filter (fun f => f.severity = .Error)).length
      let warning := (failures.filter (fun f => f.severity = .Warning)).length
      toString failures.length ++ " failures: " ++ toString critical ++
        " critical, " ++ toString error ++ " error, " ++ toString warning ++
        " warning"
  { status := status, exit_code := exit_code, reason := reason }

/-! ## apifuzz-core schema.rs — raw interchange types -/

/-- `RawCase` from schema.rs. -/
structure RawCase where
  method : String
  path : String
  id : Option String
  path_parameters : Option (List (String × Json))
  headers : Option (List (String × String))
  query : Option (List (String × Json))
  body : Option Json
  media_type : Option String

/-- `RawResponse` from schema.rs. -/
structure RawResponse where
  status_code : Nat
  elapsed : Rat
  message : String
  content_length : Nat
  body : Option String

/-- `RawInteraction` from schema.rs. -/
structure RawInteraction where
  case : RawCase
  response : RawResponse
  operation : String
  failures : List RawFailure

/-- `SchemathesisOutput` from schema.rs (the runner's aggregate result). -/
structure SchemathesisOutput where
  total : Nat
  success : Nat
  failure_count : Nat
  failures : List RawFailure
  interactions : List RawInteraction
  errors : List String

/-! ## apifuzz-core convert.rs — the failure classifier -/

/-- JSON string escaping for `serde_json::to_string` (quotes and
backslashes; the snapshots under test contain no control characters). -/
def escapeJsonString (s : String) : String :=
  s.toList.foldl (fun acc c =>
    if c = Char.ofNat 34 then acc ++ "\\\""
    else if c = Char.ofNat 92 then acc ++ "\\\\"
    else acc ++ String.mk [c]) ""

mutual

/-- Compact `serde_json::to_string` rendering of a JSON value (`fnum`
rationals render with their numerator and denominator; no claim below
inspects serialized float text). -/
def jsonSerialize : Json → String
  | .null => "null"
  | .bool b => if b then "true" else "false"
  | .num n => toString n
  | .fnum q => toString q.num ++ "/" ++ toString q.den
  | .str s => "\"" ++ escapeJsonString s ++ "\""
  | .arr elems => "[" ++ serializeElems elems ++ "]"
  | .obj fields => "\x7b" ++ serializeFields fields ++ "\x7d"

/-- Comma-joined serialization of array elements. -/
def serializeElems : List Json → String
  | [] => ""
  | [x] => jsonSerialize x
  | x :: rest => jsonSerialize x ++ "," ++ serializeElems rest

/-- Comma-joined serialization of object fields. -/
def serializeFields : List (String × Json) → String
  | [] => ""
  | [(k, v)] => "\"" ++ escapeJsonString k ++ "\":" ++ jsonSerialize v
  | (k, v) :: rest =>
    "\"" ++ escapeJsonString k ++ "\":" ++ jsonSerialize v ++ "," ++
      serializeFields rest

end

/-- Insert-or-overwrite on a string-keyed association list (context map). -/
def strAssocInsert (l : List (String × String)) (k v : String) :
    List (String × String) :=
  match l with
  | [] => [(k, v)]
  | (k2, v2) :: rest =>
    if k2 = k then (k, v) :: rest else (k2, v2) :: strAssocInsert rest k v

/-- `convert::classify_type`: explicit kind names first, unknown kinds fall
back to status-code classification. -/
def classify_type (type_name : String) (status_code : Option Nat) : FailureType :=
  if type_name = "ServerError" then .ServerError
  else if type_name = "ResponseTimeExceeded" then .Timeout
  else if type_name = "MalformedJson" ∨ type_name = "SchemaViolation" then
    .SchemaViolation
  else if type_name = "StatusCodeConformance" then .StatusCodeConformance
  else if type_name = "NegativeTestAccepted" then .NegativeTestAccepted
  else if type_name = "ContentTypeMismatch" then .ContentTypeMismatch
  else
    match status_code with
    | none => .UnexpectedError
    | some sc =>
      if sc = 408 ∨ sc = 504 then .Timeout
      else if 500 ≤ sc ∧ sc ≤ 599 then .ServerError
      else if sc = 401 ∨ sc = 403 then .AuthError
      else if sc = 429 then .RateLimit
      else .UnexpectedError

/-- `convert::map_severity`: the four known strings, otherwise the failure
type's default severity. -/
def map_severity (raw_severity : String) (failure_type : FailureType) : Severity :=
  if raw_severity = "critical" then .Critical
  else if raw_severity = "high" then .Error
  else if raw_severity = "medium" then .Warning
  else if raw_severity = "low" then .Info
  else failure_type.default_severity

/-- `convert::parse_operation`: split at the first space. -/
def parse_operation (operation : String) : String × String :=
  match operation.splitOn " " with
  | [] => ("UNKNOWN", operation)
  | [_] => ("UNKNOWN", operation)
  | m :: rest => (m, String.intercalate " " rest)

/-- `convert::default_request`. -/
def default_request (method path : String) : RequestSnapshot :=
  { method := method, url := path, headers := [], body := none }

/-- `convert::request_from_interaction`: headers, stringified body, and the
URL rebuilt from the path template and resolved path parameters. -/
def request_from_interaction (interaction : RawInteraction) : RequestSnapshot :=
  let case := interaction.case
  let headers := case.headers.getD []
  let body := case.body.map (fun b =>
    match b with
    | .str s => s
    | other => jsonSerialize other)
  let url :=
    match case.path_parameters with
    | some params =>
      params.foldl (fun url kv =>
        let val_str :=
          match kv.2 with
          | .str s => s
          | other => jsonSerialize other
        url.replace ("\x7b" ++ kv.1 ++ "\x7d") val_str) case.path
    | none => case.path
  { method := case.method, url := url, headers := headers, body := body }

/-- `convert::response_from_interaction`: latency in whole milliseconds,
clamped at zero (the `as u64` cast truncates). -/
def response_from_interaction (interaction : RawInteraction) : ResponseSnapshot :=
  let resp := interaction.response
  { status_code := resp.status_code,
    headers := [],
    body := resp.body,
    latency_ms := (max 0 (resp.elapsed * 1000)).floor.toNat }

/-- `convert::add_context`: metadata preserved on the classified failure. -/
def add_context (failure : Failure) (raw : RawFailure) : Failure :=
  let ctx := strAssocInsert failure.context "schemathesis_type" raw.failure_type
  let ctx := strAssocInsert ctx "title" raw.title
  let ctx := if !raw.message.isEmpty then strAssocInsert ctx "message" raw.message
    else ctx
  let ctx :=
    match raw.elapsed with
    | some elapsed => strAssocInsert ctx "elapsed_s" (fmt3 elapsed)
    | none => ctx
  let ctx :=
    match raw.deadline with
    | some deadline => strAssocInsert ctx "deadline_s" (fmt3 deadline)
    | none => ctx
  let ctx :=
    match raw.validation_message with
    | some msg => strAssocInsert ctx "validation_message" msg
    | none => ctx
  { failure with context := ctx }

/-- Lookup in the case-id → interaction map built by `classify_failures`
(a HashMap collected from the interaction list: the last entry with a
given id wins). -/
def interactionGet (interactions : List RawInteraction) (cid : String) :
    Option RawInteraction :=
  ((interactions.filterMap (fun i => i.case.id.map (fun id => (id, i)))).reverse.find?
    (fun p => p.1 = cid)).map Prod.snd

/-- `convert::convert_one`: classify one raw failure, joining its
interaction by case id for the request/response snapshots. -/
def convert_one (raw : RawFailure) (idx : Nat)
    (interactions : List RawInteraction) : Failure :=
  let failure_type := classify_type raw.failure_type raw.status_code
  let severity := map_severity raw.severity failure_type
  let mp := parse_operation raw.operation
  let id := raw.case_id.getD ("f" ++ toString idx)
  let interaction := raw.case_id.bind (fun cid => interactionGet interactions cid)
  let request :=
    match interaction.map request_from_interaction with
    | some r => r
    | none => default_request mp.1 mp.2
  let response := interaction.map response_from_interaction
  let failure : Failure :=
    { id := id,
      method := mp.1,
      path := mp.2,
      status_code :=
        match raw.status_code with
        | some sc => sc
        | none => (interaction.map (fun i => i.response.status_code)).getD 0,
      expected_status := none,
      failure_type := failure_type,
      severity := severity,
      request := request,
      response := response,
      context := [] }
  add_context failure raw

/-- `convert::classify_failures`. -/
def classify_failures (output : SchemathesisOutput) : List Failure :=
  (output.failures.enum.map (fun p => convert_one p.2 p.1 output.interactions))

/-! ## native/mod.rs — the fuzz accumulator -/

/-- One executor result: an interaction with its validator findings, or a
transport error string (`execute_one`'s return type). -/
def ExecResult : Type := Except String (RawInteraction × List RawFailure)

/-- `FuzzAccumulator` from native/mod.rs. -/
structure FuzzAccumulator where
  total : Nat
  success : Nat
  failures : List RawFailure
  interactions : List RawInteraction
  errors : List String
  seen_spec_gaps : List String

/-- `FuzzAccumulator::new`. -/
def FuzzAccumulator.new : FuzzAccumulator :=
  { total := 0, success := 0, failures := [], interactions := [],
    errors := [], seen_spec_gaps := [] }

/-- `FuzzAccumulator::record`: every result increments `total`; a clean
interaction increments `success`; findings and the interaction are stored;
a transport error is formatted and pushed onto `errors`.  Returns the
updated accumulator and whether the request had failures. -/
def FuzzAccumulator.record (acc : FuzzAccumulator) (result : ExecResult)
    (op_label phase_label : String) : FuzzAccumulator × Bool :=
  let acc := { acc with total := acc.total + 1 }
  match result with
  | .ok (interaction, failures) =>
    let failed := !failures.isEmpty
    let acc := if !failed then { acc with success := acc.success + 1 } else acc
    ({ acc with
        failures := acc.failures ++ failures,
        interactions := acc.interactions ++ [interaction] }, failed)
  | .error e =>
    ({ acc with errors := acc.errors ++ [op_label ++ ": " ++ phase_label ++ ": " ++ e] },
     false)

/-- `FuzzAccumulator::into_output`. -/
def FuzzAccumulator.into_output (acc : FuzzAccumulator) : SchemathesisOutput :=
  { total := acc.total,
    success := acc.success,
    failure_count := acc.failures.length,
    failures := acc.failures,
    interactions := acc.interactions,
    errors := acc.errors }

/-- One recorded step of a run: an executor result with the operation and
phase labels it is recorded under. -/
structure RunStep where
  result : ExecResult
  op_label : String
  phase_label : String

/-- Folding `record` over the steps of a run, starting from the fresh
accumulator. -/
def run_accumulate (steps : List RunStep) : FuzzAccumulator :=
  steps.foldl (fun acc step => (acc.record step.result step.op_label step.phase_label).1)
    FuzzAccumulator.new

/-! ## apifuzz-core status.rs — status distribution analysis -/

/-- `SuccessCriteria` from config.rs (serde default: `Default`). -/
inductive SuccessCriteria where
  | Default : SuccessCriteria
  | Require2xx : SuccessCriteria
  | AnyResponse : SuccessCriteria
  deriving DecidableEq

/-- Generic insert-or-overwrite on a string-keyed association list. -/
def strMapInsert {α : Type} (l : List (String × α)) (k : String) (v : α) :
    List (String × α) :=
  match l with
  | [] => [(k, v)]
  | (k2, v2) :: rest =>
    if k2 = k then (k, v) :: rest else (k2, v2) :: strMapInsert rest k v

/-- Generic lookup on a string-keyed association list. -/
def strMapGet {α : Type} (l : List (String × α)) (k : String) : Option α :=
  match l with
  | [] => none
  | (k2, v) :: rest => if k2 = k then some v else strMapGet rest k

/-- `OperationStats` from status.rs (the success rate kept exact). -/
structure OperationStats where
  operation : String
  total : Nat
  status_distribution : List (Nat × Nat)
  success_rate : Rat

/-- `StatusWarningKind` from status.rs. -/
inductive StatusWarningKind where
  | AuthenticationIssue : StatusWarningKind
  | RateLimited : StatusWarningKind
  | EndpointNotFound : StatusWarningKind
  | NoSuccessfulResponses : StatusWarningKind
  | LowSuccessRate : StatusWarningKind
  deriving DecidableEq

/-- Display strings of `StatusWarningKind`. -/
def StatusWarningKind.display : StatusWarningKind → String
  | .AuthenticationIssue => "authentication may be invalid"
  | .RateLimited => "rate limited — consider adding delay"
  | .EndpointNotFound => "endpoint not found — check base_url or spec paths"
  | .NoSuccessfulResponses => "no successful responses"
  | .LowSuccessRate => "success rate below threshold"

/-- `StatusWarning` from status.rs. -/
structure StatusWarning where
  operation : String
  kind : StatusWarningKind
  message : String
  is_failure : Bool

/-- `GlobalStats` from status.rs. -/
structure GlobalStats where
  total : Nat
  status_distribution : List (Nat × Nat)
  success_rate : Rat

/-- `StatusAnalysis` from status.rs. -/
structure StatusAnalysis where
  operations : List OperationStats
  global : GlobalStats
  warnings : List StatusWarning

/-- Ascending insertion by operation label (model of the stable
`sort_by(operation cmp)`; grouped labels are unique). -/
def insertStatsSorted (x : OperationStats) : List OperationStats → List OperationStats
  | [] => [x]
  | y :: ys =>
    if decide (y.operation < x.operation) then y :: insertStatsSorted x ys
    else x :: y :: ys

/-- `status::compute_operation_stats`: group interactions by operation
label, count status codes, and sort by label. -/
def compute_operation_stats (interactions : List RawInteraction) :
    List OperationStats :=
  let groups : List (String × List (Nat × Nat)) :=
    interactions.foldl (fun groups i =>
      let dist := (strMapGet groups i.operation).getD []
      let code := i.response.status_code
      strMapInsert groups i.operation
        (natAssocInsert dist code ((natAssocGet dist code).getD 0 + 1))) []
  let stats := groups.map (fun g =>
    let total := (g.2.map Prod.snd).sum
    let success_count := ((g.2.filter (fun p => 200 ≤ p.1 ∧ p.1 < 300)).map Prod.snd).sum
    { operation := g.1,
      total := total,
      status_distribution := g.2,
      success_rate := if total > 0 then (success_count : Rat) / (total : Rat) else 0 })
  stats.foldl (fun acc s => insertStatsSorted s acc) []

/-- `status::compute_global_stats`. -/
def compute_global_stats (op_stats : List OperationStats) : GlobalStats :=
  let dist := op_stats.foldl (fun dist op =>
    op.status_distribution.foldl (fun dist p =>
      natAssocInsert dist p.1 ((natAssocGet dist p.1).getD 0 + p.2)) dist) []
  let total := (op_stats.map (fun op => op.total)).sum
  let success_count := ((dist.filter (fun p => 200 ≤ p.1 ∧ p.1 < 300)).map Prod.snd).sum
  { total := total,
    status_distribution := dist,
    success_rate := if total > 0 then (success_count : Rat) / (total : Rat) else 0 }

/-- `status::count_2xx`. -/
def count_2xx (op : OperationStats) : Nat :=
  ((op.status_distribution.filter (fun p => 200 ≤ p.1 ∧ p.1 < 300)).map Prod.snd).sum

/-- `status::detect_pattern`: a ≥90% dominant status class, else a zero
success rate (`0.9` taken exactly; the f64 product may differ by one ulp,
which no claim below depends on). -/
def detect_pattern (stats : OperationStats) : Option StatusWarningKind :=
  if stats.total = 0 then none
  else
    let threshold : Int := Int.ceil ((stats.total : Rat) * (9 / 10 : Rat))
    let auth_count : Nat :=
      ((stats.status_distribution.filter (fun p => p.1 = 401 ∨ p.1 = 403)).map Prod.snd).sum
    if (auth_count : Int) ≥ threshold then some .AuthenticationIssue
    else
      let rate_limit_count := (natAssocGet stats.status_distribution 429).getD 0
      if (rate_limit_count : Int) ≥ threshold then some .RateLimited
      else
        let not_found_count := (natAssocGet stats.status_distribution 404).getD 0
        if (not_found_count : Int) ≥ threshold then some .EndpointNotFound
        else if stats.success_rate = 0 then some .NoSuccessfulResponses
        else none

/-- Rust `{:.1}` fixed-point formatting. -/
def fmt1 (q : Rat) : String :=
  let scaled : Int := round (q * 10)
  let sign := if scaled < 0 then "-" else ""
  let a := scaled.natAbs
  sign ++ toString (a / 10) ++ "." ++ toString (a % 10)

/-- `status::format_pct`. -/
def format_pct (rate : Rat) : String :=
  let pct := rate * 100
  if pct = 0 ∨ pct = 100 then toString (round pct : Int)
  else fmt1 pct

/-- The per-pattern warning message of `status::analyze`. -/
def pattern_message (op : OperationStats) (kind : StatusWarningKind) : String :=
  op.operation ++ ": " ++ kind.display ++ " (" ++ format_pct op.success_rate ++
    "% 2xx, " ++ toString (count_2xx op) ++ "/" ++ toString op.total ++ ")"

/-- `status::analyze`: per-operation warnings according to the success
criteria (`Default` warnings are never failures; `Require2xx` escalates
patterns and low success rates). -/
def analyze (interactions : List RawInteraction) (criteria : SuccessCriteria)
    (min_success_rate : Option Rat) : StatusAnalysis :=
  let operations := compute_operation_stats interactions
  let global := compute_global_stats operations
  let effective_min_rate := min_success_rate.getD (1 / 10)
  let warnings := operations.flatMap (fun op =>
    match criteria with
    | .AnyResponse => []
    | .Default =>
      match detect_pattern op with
      | some kind =>
        [{ operation := op.operation, kind := kind,
           message := pattern_message op kind, is_failure := false }]
      | none => []
    | .Require2xx =>
      match detect_pattern op with
      | some kind =>
        [{ operation := op.operation, kind := kind,
           message := pattern_message op kind, is_failure := true }]
      | none =>
        if op.success_rate < effective_min_rate then
          [{ operation := op.operation, kind := .LowSuccessRate,
             message := op.operation ++ ": success rate " ++
               format_pct op.success_rate ++ "% below threshold " ++
               format_pct effective_min_rate ++ "% (" ++
               toString (count_2xx op) ++ "/" ++ toString op.total ++ ")",
             is_failure := true }]
        else [])
  { operations := operations, global := global, warnings := warnings }

/-! ## apifuzz-cli main.rs — the run glue after the fuzz loop -/

/-- The observable outcome of the fuzz subcommand: the process exit code
and, when one was computed, the final verdict (the two early tool-error
returns exit 3 without building a verdict). -/
structure MainOutcome where
  exit_code : Int
  verdict : Option Verdict

/-- The verdict-and-exit logic of `main::run` (fuzz path) applied to the
runner output: the `total == 0` safety return, the empty-classification
safety return, policy filtering, status-analysis escalation, and the final
verdict whose exit code the process returns. -/
def main_run (output : SchemathesisOutput) (strict : Bool)
    (criteria : SuccessCriteria) (min_success_rate : Option Rat) : MainOutcome :=
  if output.total = 0 then { exit_code := 3, verdict := none }
  else
    let classified := classify_failures output
    if output.failure_count > 0 ∧ classified.isEmpty then
      { exit_code := 3, verdict := none }
    else
      let policy : VerdictPolicy := { VerdictPolicy.default with strict := strict }
      let filtered := policy.filter classified
      let status_analysis := analyze output.interactions criteria min_success_rate
      let has_status_failures := status_analysis.warnings.any (fun w => w.is_failure)
      let verdict : Verdict := policy.verdict filtered
      let final_exit_code : Int :=
        if has_status_failures ∧ verdict.exit_code = 0 then 1 else verdict.exit_code
      let final_verdict : Verdict :=
        if final_exit_code ≠ verdict.exit_code then
          { status := VerdictStatus.Fail,
            exit_code := final_exit_code,
            reason := verdict.reason ++ " + status analysis: " ++
              String.intercalate "; "
                (status_analysis.warnings.map (fun w => w.message)) }
        else verdict
      { exit_code := final_verdict.exit_code, verdict := some final_verdict }

/-! ## Claim C6 — integer boundaries of `minimum=0, maximum=100` -/

/-- The integer schema of claim C6: `minimum = 0`, `maximum = 100`. -/
def c6_schema : Json :=
  Json.obj [("type", Json.str "integer"), ("minimum", Json.num 0),
            ("maximum", Json.num 100)]

/-- C6 counterexample: `boundaries` on the integer schema with
`minimum = 0, maximum = 100` does not contain 99 — the source pushes only
`minimum`, `minimum − 1`, `maximum` and `maximum + 1`, never `maximum − 1`,
and 99 is in no other boundary group.  This refutes the claim that the
list contains each of −1, 0, 1, 99, 100, 101. -/
theorem c6_boundaries_missing_99 :
    Json.num 99 ∉ boundaries c6_schema (Json.obj []) :=
  not_mem_of_not_containsNum _ _ (by decide)

/-- C6 amended: `boundaries` on the integer schema with
`minimum = 0, maximum = 100` contains each of −1, 0, 1, 100 and 101
(−1, 0, 1 from the dense band, 0/−1 and 100/101 as the schema minimum and
maximum with their out-of-range neighbours); 99 is absent. -/
theorem c6_boundaries_contain_amended :
    Json.num (-1) ∈ boundaries c6_schema (Json.obj []) ∧
    Json.num 0 ∈ boundaries c6_schema (Json.obj []) ∧
    Json.num 1 ∈ boundaries c6_schema (Json.obj []) ∧
    Json.num 100 ∈ boundaries c6_schema (Json.obj []) ∧
    Json.num 101 ∈ boundaries c6_schema (Json.obj []) :=
  ⟨mem_of_containsNum _ _ (by decide), mem_of_containsNum _ _ (by decide),
   mem_of_containsNum _ _ (by decide), mem_of_containsNum _ _ (by decide),
   mem_of_containsNum _ _ (by decide)⟩

/-! ## Counting findings by kind -/

/-- Number of findings of a given kind in a list of validator findings. -/
def countType (l : List RawFailure) (t : String) : Nat :=
  (l.filter (fun f => f.failure_type = t)).length

theorem countType_append (l1 l2 : List RawFailure) (t : String) :
    countType (l1 ++ l2) t = countType l1 t + countType l2 t := by
  simp [countType, List.filter_append]

theorem countType_eq_zero {l : List RawFailure} {t : String}
    (h : ∀ f ∈ l, f.failure_type ≠ t) : countType l t = 0 := by
  simp only [countType, List.length_eq_zero, List.filter_eq_nil_iff]
  intro f hf
  simpa using h f hf

/-- Every finding of `validate_header_value` is a HeaderSatisfyExpectation. -/
theorem validate_header_value_kind (ext : ExternalIface)
    (operation_label case_id : String) (status : Nat)
    (header_name value_str : String) (schema : Json) :
    ∀ f ∈ validate_header_value ext operation_label case_id status header_name
        value_str schema, f.failure_type = "HeaderSatisfyExpectation" := by
  intro f hf
  unfold validate_header_value at hf
  rcases hc : coerce_header_value ext (((schema.get "type").bind Json.asStr).getD "")
      value_str with _ | val <;> rw [hc] at hf
  · simp_all [make_failure]
  · rcases hv : ext.validator_for schema with _ | validate <;> rw [hv] at hf
    · simp at hf
    · split at hf <;> simp_all [make_failure]

/-- Every finding of the Content-Type gap branch is a
HeaderSatisfyExpectation (stated on the result pair). -/
theorem content_type_gap_kind_eq (input : CheckInput) (seen : List String)
    (fs : List RawFailure) (seen2 : List String)
    (heq : content_type_gap input seen = (fs, seen2)) :
    ∀ f ∈ fs, f.failure_type = "HeaderSatisfyExpectation" := by
  intro f hf
  unfold content_type_gap at heq
  repeat split at heq
  all_goals
    rcases heq with ⟨rfl, rfl⟩ <;> simp_all [make_failure]

/-- Every finding of the Content-Type gap branch is a
HeaderSatisfyExpectation. -/
theorem content_type_gap_kind (input : CheckInput) (seen : List String) :
    ∀ f ∈ (content_type_gap input seen).1,
      f.failure_type = "HeaderSatisfyExpectation" :=
  content_type_gap_kind_eq input seen _ _ rfl

/-- Every finding of the Content-Type section is a
HeaderSatisfyExpectation (stated on the result pair). -/
theorem content_type_check_kind_eq (input : CheckInput) (seen : List String)
    (fs : List RawFailure) (seen2 : List String)
    (heq : content_type_check input seen = (fs, seen2)) :
    ∀ f ∈ fs, f.failure_type = "HeaderSatisfyExpectation" := by
  intro f hf
  unfold content_type_check at heq
  rcases hget : natAssocGet input.op.response_content_types input.status_code with
      _ | ts <;> rw [hget] at heq
  · exact content_type_gap_kind_eq input seen fs seen2 heq f hf
  · rcases ts with _ | ⟨t0, ts2⟩
    · exact content_type_gap_kind_eq input seen fs seen2 (by simpa using heq) f hf
    · rcases hct : input.content_type with _ | actual <;> rw [hct] at heq
      · simp only [List.isEmpty_cons, Bool.not_false, if_true] at heq
        rcases heq with ⟨rfl, rfl⟩
        simp_all [make_failure]
      · simp only [List.isEmpty_cons, Bool.not_false, if_true] at heq
        split at heq <;> rcases heq with ⟨rfl, rfl⟩ <;> simp_all [make_failure]

/-- Every finding of the Content-Type section is a
HeaderSatisfyExpectation. -/
theorem content_type_check_kind (input : CheckInput) (seen : List String) :
    ∀ f ∈ (content_type_check input seen).1,
      f.failure_type = "HeaderSatisfyExpectation" :=
  content_type_check_kind_eq input seen _ _ rfl

/-- Every finding of the declared-headers section is a
HeaderSatisfyExpectation. -/
theorem declared_headers_check_kind (ext : ExternalIface) (input : CheckInput) :
    ∀ f ∈ declared_headers_check ext input,
      f.failure_type = "HeaderSatisfyExpectation" := by
  intro f hf
  unfold declared_headers_check at hf
  split at hf
  · rcases List.mem_flatMap.mp hf with ⟨hdr, _, hmem⟩
    split at hmem
    · simp_all [make_failure]
    · rcases hv : headerGet input.response_headers hdr.name with _ | v <;>
        rcases hs : hdr.schema with _ | sch <;>
        simp only [hv, hs] at hmem <;>
        first
        | exact validate_header_value_kind ext _ _ _ _ _ _ f hmem
        | simp_all
  · simp_all

/-- Every finding of the header expectation check is a
HeaderSatisfyExpectation. -/
theorem check_header_expectation_kind (ext : ExternalIface) (input : CheckInput)
    (seen : List String) :
    ∀ f ∈ (check_header_expectation ext input seen).1,
      f.failure_type = "HeaderSatisfyExpectation" := by
  intro f hf
  unfold check_header_expectation at hf
  rcases List.mem_append.mp hf with h | h
  · exact content_type_check_kind input seen f h
  · exact declared_headers_check_kind ext input f h

/-- Every finding of the body expectation check is a
BodySatisfyExpectation (stated on the result pair). -/
theorem check_body_expectation_kind_eq (ext : ExternalIface) (input : CheckInput)
    (seen : List String) (fs : List RawFailure) (seen2 : List String)
    (heq : check_body_expectation ext input seen = (fs, seen2)) :
    ∀ f ∈ fs, f.failure_type = "BodySatisfyExpectation" := by
  intro f hf
  unfold check_body_expectation at heq
  split at heq
  · rcases heq with ⟨rfl, rfl⟩
    simp_all [make_failure]
  · rcases hget : natAssocGet input.op.response_schemas input.status_code with
        _ | schema <;> simp only [hget] at heq
    · split at heq
      · split at heq <;> rcases heq with ⟨rfl, rfl⟩ <;> simp_all [make_failure]
      · rcases heq with ⟨rfl, rfl⟩
        simp_all
    · split at heq
      · rcases hp : ext.parseJson input.body_text with _ | body_val <;>
          simp only [hp] at heq
        · split at heq <;> rcases heq with ⟨rfl, rfl⟩ <;> simp_all [make_failure]
        · rcases hvf : ext.validator_for schema with _ | validate <;>
            simp only [hvf] at heq
          · rcases heq with ⟨rfl, rfl⟩
            simp_all
          · split at heq <;> rcases heq with ⟨rfl, rfl⟩ <;>
              simp_all [make_failure]
      · split at heq
        · split at heq <;> rcases heq with ⟨rfl, rfl⟩ <;> simp_all [make_failure]
        · rcases heq with ⟨rfl, rfl⟩
          simp_all

/-- Every finding of the body expectation check is a
BodySatisfyExpectation. -/
theorem check_body_expectation_kind (ext : ExternalIface) (input : CheckInput)
    (seen : List String) :
    ∀ f ∈ (check_body_expectation ext input seen).1,
      f.failure_type = "BodySatisfyExpectation" :=
  check_body_expectation_kind_eq ext input seen _ _ rfl

/-! ## Behaviour of the individual checks by status class -/

theorem server_error_check_5xx (input : CheckInput)
    (h1 : 500 ≤ input.status_code) (h2 : input.status_code < 600) :
    server_error_check input =
      [make_failure "ServerError" input.operation_label "Server error"
        (toString input.status_code ++ " on " ++ input.url)
        input.case_id "critical" (some input.status_code)] := by
  unfold server_error_check
  rw [if_pos ⟨h1, h2⟩]

theorem server_error_check_non5xx (input : CheckInput)
    (h : ¬ (500 ≤ input.status_code ∧ input.status_code < 600)) :
    server_error_check input = [] := by
  unfold server_error_check
  rw [if_neg h]

theorem response_time_check_kind (input : CheckInput) :
    ∀ f ∈ response_time_check input, f.failure_type = "ResponseTimeExceeded" := by
  intro f hf
  unfold response_time_check at hf
  repeat split at hf
  all_goals simp_all [make_failure]

theorem check_status_expectation_5xx (input : CheckInput)
    (h1 : 500 ≤ input.status_code) (h2 : input.status_code < 600) :
    check_status_expectation input = [] := by
  unfold check_status_expectation
  rw [if_pos ⟨h1, h2⟩]

theorem check_status_expectation_kind (input : CheckInput) :
    ∀ f ∈ check_status_expectation input,
      f.failure_type = "StatusSatisfyExpectation" := by
  intro f hf
  unfold check_status_expectation at hf
  split at hf
  · simp_all
  · rcases hexp : input.expectation with expected | declared | _ <;>
      simp only [hexp] at hf <;>
      repeat split at hf
    all_goals simp_all [make_failure]

theorem status_rejection_2xx (input : CheckInput)
    (hrej : input.expectation = StatusExpectation.Rejection)
    (h1 : 200 ≤ input.status_code) (h2 : input.status_code < 300) :
    check_status_expectation input =
      [make_failure "StatusSatisfyExpectation" input.operation_label
        "Invalid input accepted"
        ("Type-confused request returned " ++ toString input.status_code ++
          " on " ++ input.url ++ " (expected 4xx rejection)")
        input.case_id "medium" (some input.status_code)] := by
  unfold check_status_expectation
  simp only [hrej]
  rw [if_neg (by omega), if_pos ⟨h1, h2⟩]

theorem status_rejection_non2xx (input : CheckInput)
    (hrej : input.expectation = StatusExpectation.Rejection)
    (h : ¬ (200 ≤ input.status_code ∧ input.status_code < 300)) :
    check_status_expectation input = [] := by
  unfold check_status_expectation
  simp only [hrej]
  split <;> simp_all

theorem countType_eq_zero_of_kind {l : List RawFailure} {k t : String}
    (hk : ∀ f ∈ l, f.failure_type = k) (hne : k ≠ t) : countType l t = 0 :=
  countType_eq_zero (fun f hf => by rw [hk f hf]; exact hne)

/-- Shared 5xx counting fact: one ServerError finding, zero
StatusSatisfyExpectation findings. -/
theorem run_checks_5xx_counts (ext : ExternalIface) (input : CheckInput)
    (seen : List String)
    (h1 : 500 ≤ input.status_code) (h2 : input.status_code < 600) :
    countType (run_checks ext input seen).1 "ServerError" = 1 ∧
    countType (run_checks ext input seen).1 "StatusSatisfyExpectation" = 0 := by
  have hrun : (run_checks ext input seen).1 =
      server_error_check input ++ response_time_check input ++
      check_status_expectation input ++
      (check_header_expectation ext input seen).1 ++
      (check_body_expectation ext input
        (check_header_expectation ext input seen).2).1 := rfl
  constructor
  · rw [hrun, countType_append, countType_append, countType_append, countType_append,
       server_error_check_5xx input h1 h2, check_status_expectation_5xx input h1 h2,
       countType_eq_zero_of_kind (response_time_check_kind input) (by decide),
       countType_eq_zero_of_kind (check_header_expectation_kind ext input seen) (by decide),
       countType_eq_zero_of_kind (check_body_expectation_kind ext input _) (by decide)]
    simp [countType, make_failure]
  · rw [hrun, countType_append, countType_append, countType_append, countType_append,
       server_error_check_5xx input h1 h2, check_status_expectation_5xx input h1 h2,
       countType_eq_zero_of_kind (check_header_expectation_kind ext input seen) (by decide),
       countType_eq_zero_of_kind (check_body_expectation_kind ext input _) (by decide),
       countType_eq_zero_of_kind (response_time_check_kind input) (by decide)]
    simp [countType, make_failure]

/-- C5: for every response with a 5xx status code the validation pipeline
emits exactly one ServerError finding, that finding carries severity
critical, and no StatusSatisfyExpectation finding is emitted — for every
external parser/validator, every input and every dedup-set state,
regardless of the expectation carried by the case. -/
theorem c5_5xx_single_server_error (ext : ExternalIface) (input : CheckInput)
    (seen : List String)
    (h1 : 500 ≤ input.status_code) (h2 : input.status_code < 600) :
    countType (run_checks ext input seen).1 "ServerError" = 1 ∧
    countType (run_checks ext input seen).1 "StatusSatisfyExpectation" = 0 ∧
    (∀ f ∈ (run_checks ext input seen).1,
      f.failure_type = "ServerError" → f.severity = "critical") := by
  have hrun : (run_checks ext input seen).1 =
      server_error_check input ++ response_time_check input ++
      check_status_expectation input ++
      (check_header_expectation ext input seen).1 ++
      (check_body_expectation ext input
        (check_header_expectation ext input seen).2).1 := rfl
  refine ⟨(run_checks_5xx_counts ext input seen h1 h2).1,
    (run_checks_5xx_counts ext input seen h1 h2).2, ?_⟩
  intro f hf hft
  rw [hrun] at hf
  rcases List.mem_append.mp hf with hf | hbd
  · rcases List.mem_append.mp hf with hf | hhd
    · rcases List.mem_append.mp hf with hf | hst
      · rcases List.mem_append.mp hf with hsv | htm
        · rw [server_error_check_5xx input h1 h2] at hsv
          simp_all [make_failure]
        · have := response_time_check_kind input f htm
          simp_all
      · rw [check_status_expectation_5xx input h1 h2] at hst
        simp at hst
    · have := check_header_expectation_kind ext input seen f hhd
      simp_all
  · have := check_body_expectation_kind ext input _ f hbd
    simp_all

/-- A trivial external interface for concrete evaluations: nothing parses,
no validator can be built. -/
def ext0 : ExternalIface :=
  { parseJson := fun _ => none,
    validator_for := fun _ => none,
    parseF64 := fun _ => none }

/-- An operation declaring nothing (no parameters, schemas, content types
or headers). -/
def bare_op : Operation :=
  { method := "GET", path := "/redirect", parameters := [],
    request_body_schema := none, expected_statuses := [],
    response_schemas := [], response_content_types := [],
    response_headers := [] }

/-- A concrete 5xx check input used to witness C5. -/
def c5w_input : CheckInput :=
  { status_code := 500, body_text := "", content_type := none,
    response_headers := [], elapsed := 1 / 100, url := "http://localhost/redirect",
    operation_label := "GET /redirect", case_id := "case-c5",
    expectation := StatusExpectation.AnyDeclared [200], op := bare_op,
    response_time_limit := none }

/-- C5 witness: the 5xx theorem applied to a concrete 500 response. -/
theorem c5_witness :
    countType (run_checks ext0 c5w_input []).1 "ServerError" = 1 ∧
    countType (run_checks ext0 c5w_input []).1 "StatusSatisfyExpectation" = 0 :=
  ⟨(c5_5xx_single_server_error ext0 c5w_input [] (by decide) (by decide)).1,
   (c5_5xx_single_server_error ext0 c5w_input [] (by decide) (by decide)).2.1⟩

/-! ## Claim C7 — Rejection expectation -/

/-- A concrete 302 response for a Rejection-expectation case: nothing is
declared for the status, no Content-Type, empty body. -/
def c7_input : CheckInput :=
  { status_code := 302, body_text := "", content_type := none,
    response_headers := [], elapsed := 1 / 100, url := "http://localhost/redirect",
    operation_label := "GET /redirect", case_id := "case-c7",
    expectation := StatusExpectation.Rejection, op := bare_op,
    response_time_limit := none }

/-- C7 counterexample: a 302 response to a Rejection-expectation case —
a status outside 400..=499 — yields no validator finding at all: the
Rejection branch only fires for 2xx statuses, and 1xx/3xx statuses are
accepted silently.  This refutes the claim that every non-4xx response
yields a finding. -/
theorem c7_counterexample :
    c7_input.expectation = StatusExpectation.Rejection ∧
    ¬ (400 ≤ c7_input.status_code ∧ c7_input.status_code ≤ 499) ∧
    (run_checks ext0 c7_input []).1 = [] :=
  ⟨rfl, by decide, rfl⟩

/-- C7 amended: for every case carrying a Rejection expectation, a 2xx
response yields exactly one StatusSatisfyExpectation finding ("Invalid
input accepted", severity medium), a 5xx response yields the ServerError
finding and no StatusSatisfyExpectation finding, and any other status
(1xx, 3xx, 4xx) yields neither kind of status finding. -/
theorem c7_rejection_statuses (ext : ExternalIface) (input : CheckInput)
    (seen : List String)
    (hrej : input.expectation = StatusExpectation.Rejection) :
    (200 ≤ input.status_code ∧ input.status_code < 300 →
      countType (run_checks ext input seen).1 "StatusSatisfyExpectation" = 1 ∧
      ∀ f ∈ (run_checks ext input seen).1,
        f.failure_type = "StatusSatisfyExpectation" →
          f.title = "Invalid input accepted" ∧ f.severity = "medium") ∧
    (500 ≤ input.status_code ∧ input.status_code < 600 →
      countType (run_checks ext input seen).1 "ServerError" = 1 ∧
      countType (run_checks ext input seen).1 "StatusSatisfyExpectation" = 0) ∧
    (¬ (200 ≤ input.status_code ∧ input.status_code < 300) →
     ¬ (500 ≤ input.status_code ∧ input.status_code < 600) →
      countType (run_checks ext input seen).1 "StatusSatisfyExpectation" = 0 ∧
      countType (run_checks ext input seen).1 "ServerError" = 0) := by
  have hrun : (run_checks ext input seen).1 =
      server_error_check input ++ response_time_check input ++
      check_status_expectation input ++
      (check_header_expectation ext input seen).1 ++
      (check_body_expectation ext input
        (check_header_expectation ext input seen).2).1 := rfl
  refine ⟨fun h2xx => ⟨?_, ?_⟩, fun h5xx => ⟨?_, ?_⟩, fun hn2 hn5 => ⟨?_, ?_⟩⟩
  · rw [hrun, countType_append, countType_append, countType_append, countType_append,
       server_error_check_non5xx input (by omega),
       status_rejection_2xx input hrej h2xx.1 h2xx.2,
       countType_eq_zero_of_kind (response_time_check_kind input) (by decide),
       countType_eq_zero_of_kind (check_header_expectation_kind ext input seen) (by decide),
       countType_eq_zero_of_kind (check_body_expectation_kind ext input _) (by decide)]
    simp [countType, make_failure]
  · intro f hf hft
    rw [hrun] at hf
    rcases List.mem_append.mp hf with hf | hbd
    · rcases List.mem_append.mp hf with hf | hhd
      · rcases List.mem_append.mp hf with hf | hst
        · rcases List.mem_append.mp hf with hsv | htm
          · rw [server_error_check_non5xx input (by omega)] at hsv
            simp at hsv
          · have := response_time_check_kind input f htm
            simp_all
        · rw [status_rejection_2xx input hrej h2xx.1 h2xx.2] at hst
          simp_all [make_failure]
      · have := check_header_expectation_kind ext input seen f hhd
        simp_all
    · have := check_body_expectation_kind ext input _ f hbd
      simp_all
  · exact (run_checks_5xx_counts ext input seen h5xx.1 h5xx.2).1
  · exact (run_checks_5xx_counts ext input seen h5xx.1 h5xx.2).2
  · rw [hrun, countType_append, countType_append, countType_append, countType_append,
       server_error_check_non5xx input hn5,
       status_rejection_non2xx input hrej hn2,
       countType_eq_zero_of_kind (response_time_check_kind input) (by decide),
       countType_eq_zero_of_kind (check_header_expectation_kind ext input seen) (by decide),
       countType_eq_zero_of_kind (check_body_expectation_kind ext input _) (by decide)]
    simp [countType]
  · rw [hrun, countType_append, countType_append, countType_append, countType_append,
       server_error_check_non5xx input hn5,
       status_rejection_non2xx input hrej hn2,
       countType_eq_zero_of_kind (response_time_check_kind input) (by decide),
       countType_eq_zero_of_kind (check_header_expectation_kind ext input seen) (by decide),
       countType_eq_zero_of_kind (check_body_expectation_kind ext input _) (by decide)]
    simp [countType]

/-- A concrete 2xx response for a Rejection-expectation case. -/
def c7w_input : CheckInput :=
  { c7_input with status_code := 200, case_id := "case-c7w" }

/-- C7 witness: the amended theorem applied to a concrete 200 response of a
type-confusion (Rejection) case. -/
theorem c7_witness :
    countType (run_checks ext0 c7w_input []).1 "StatusSatisfyExpectation" = 1 :=
  ((c7_rejection_statuses ext0 c7w_input [] rfl).1 (by decide)).1

/-! ## Claim C8 — the accumulator invariant -/

/-- Number of stored interactions that carry at least one failure. -/
def failedInteractionCount (acc : FuzzAccumulator) : Nat :=
  (acc.interactions.filter (fun i => !i.failures.isEmpty)).length

/-- The run invariant of the accumulator:
`total = success + (#interactions with ≥1 failure) + (#errors)`. -/
def acc_invariant (acc : FuzzAccumulator) : Prop :=
  acc.total = acc.success + failedInteractionCount acc + acc.errors.length

/-- The consistency of executor results: the stored interaction carries
exactly the findings returned beside it (`execute_one` builds the
interaction with `failures := failures.clone()`). -/
def result_consistent (result : ExecResult) : Prop :=
  ∀ i fs, result = Except.ok (i, fs) → i.failures = fs

theorem record_step (acc : FuzzAccumulator) (result : ExecResult)
    (op phase : String) (hagree : result_consistent result) :
    (acc.record result op phase).1.total = acc.total + 1 ∧
    (acc.record result op phase).1.success + failedInteractionCount
        (acc.record result op phase).1 +
        (acc.record result op phase).1.errors.length =
      acc.success + failedInteractionCount acc + acc.errors.length + 1 ∧
    acc.success ≤ (acc.record result op phase).1.success ∧
    failedInteractionCount acc ≤ failedInteractionCount (acc.record result op phase).1 ∧
    acc.errors.length ≤ (acc.record result op phase).1.errors.length := by
  rcases result with e | ⟨i, fs⟩
  · simp [FuzzAccumulator.record, failedInteractionCount]
    omega
  · have hif : i.failures = fs := hagree i fs rfl
    rcases fs with _ | ⟨f0, fs2⟩ <;>
      simp_all [FuzzAccumulator.record, failedInteractionCount,
        List.filter_append, hif] <;> omega

theorem record_preserves_invariant (acc : FuzzAccumulator) (result : ExecResult)
    (op phase : String) (hagree : result_consistent result)
    (hinv : acc_invariant acc) :
    acc_invariant (acc.record result op phase).1 := by
  have h := record_step acc result op phase hagree
  unfold acc_invariant at *
  omega

theorem fold_accumulate_invariant (steps : List RunStep) :
    ∀ acc : FuzzAccumulator, acc_invariant acc →
      (∀ s ∈ steps, result_consistent s.result) →
      acc_invariant (steps.foldl
        (fun acc step => (acc.record step.result step.op_label step.phase_label).1)
        acc) := by
  induction steps with
  | nil => intro acc hinv _; exact hinv
  | cons s rest ih =>
    intro acc hinv hall
    exact ih _ (record_preserves_invariant acc s.result s.op_label s.phase_label
      (hall s (List.mem_cons_self s rest)) hinv)
      (fun s2 hs2 => hall s2 (List.mem_cons_of_mem s hs2))

/-- C8: at every point of a run — after each recorded executor result —
the accumulator satisfies `total = success + (#stored interactions with at
least one failure) + (#transport errors)`, and each recorded result
increments `total` by exactly one while adding exactly one to the sum of
the three summands (none of which ever decreases), i.e. it contributes to
exactly one of them.  The hypothesis `result_consistent` records that the
stored interaction carries exactly the findings returned with it, as
`execute_one` guarantees. -/
theorem c8_accumulator_invariant (steps : List RunStep)
    (hall : ∀ s ∈ steps, result_consistent s.result) :
    (∀ n, acc_invariant (run_accumulate (steps.take n))) ∧
    (∀ acc : FuzzAccumulator, ∀ step : RunStep, result_consistent step.result →
      (acc.record step.result step.op_label step.phase_label).1.total =
        acc.total + 1 ∧
      (acc.record step.result step.op_label step.phase_label).1.success +
          failedInteractionCount
            (acc.record step.result step.op_label step.phase_label).1 +
          (acc.record step.result step.op_label step.phase_label).1.errors.length =
        acc.success + failedInteractionCount acc + acc.errors.length + 1) := by
  constructor
  · intro n
    exact fold_accumulate_invariant (steps.take n) FuzzAccumulator.new (by rfl)
      (fun s hs => hall s (List.mem_of_mem_take hs))
  · intro acc step hc
    exact ⟨(record_step acc step.result step.op_label step.phase_label hc).1,
      (record_step acc step.result step.op_label step.phase_label hc).2.1⟩

/-- A small concrete run: a clean interaction, a failed interaction, and a
transport error. -/
def c8w_interaction (cid : String) (fs : List RawFailure) : RawInteraction :=
  RawInteraction.mk
    (RawCase.mk "GET" "/health" (some cid) none none none none none)
    (RawResponse.mk 200 (1 / 20) "OK" 2 (some "ok"))
    "GET /health" fs

/-- One low-severity finding used in concrete runs. -/
def c8w_failure : RawFailure :=
  make_failure "BodySatisfyExpectation" "GET /health" "Response schema is empty"
    "Status 200 has empty schema, response body not validated" "case-b" "low"
    (some 200)

/-- The three steps of the concrete run. -/
def c8w_steps : List RunStep :=
  [{ result := Except.ok (c8w_interaction "case-a" [], []),
     op_label := "GET /health", phase_label := "random" },
   { result := Except.ok (c8w_interaction "case-b" [c8w_failure], [c8w_failure]),
     op_label := "GET /health", phase_label := "random" },
   { result := Except.error "connection refused",
     op_label := "GET /health", phase_label := "random" }]

theorem c8w_steps_consistent : ∀ s ∈ c8w_steps, result_consistent s.result := by
  intro s hs i fs heq
  simp only [c8w_steps, List.mem_cons, List.not_mem_nil, or_false] at hs
  rcases hs with rfl | rfl | rfl
  · cases heq; rfl
  · cases heq; rfl
  · cases heq

/-- C8 witness: the invariant theorem applied to the concrete three-step
run, at every prefix. -/
theorem c8_witness : acc_invariant (run_accumulate (c8w_steps.take 3)) :=
  (c8_accumulator_invariant c8w_steps c8w_steps_consistent).1 3

/-! ## Claim C9 — spec-gap warnings are deduplicated per (op, status, check) -/

/-- The titles of the three spec-gap warnings. -/
def gapTitles : List String :=
  ["No content types declared in spec", "Response schema is empty",
   "No response schema defined"]

/-- Whether a finding is one of the three low-severity spec-gap warnings. -/
def isGapFailure (f : RawFailure) : Bool :=
  gapTitles.contains f.title

/-- The check name of a spec-gap warning (the last component of its dedup
key). -/
def gapCheckName (title : String) : String :=
  if title = "No content types declared in spec" then "ct_missing"
  else if title = "Response schema is empty" then "schema_empty"
  else "schema_missing"

/-- The dedup key a spec-gap finding was guarded by. -/
def failureGapKey (f : RawFailure) : String :=
  gap_key f.operation (f.status_code.getD 0) (gapCheckName f.title)

/-- Number of spec-gap findings guarded by a given dedup key. -/
def gapCountKey (k : String) (l : List RawFailure) : Nat :=
  (l.filter (fun f => isGapFailure f && decide (failureGapKey f = k))).length

/-- Number of spec-gap findings for one (operation, status, check) tuple. -/
def countGapTriple (op : String) (status : Nat) (check : String)
    (l : List RawFailure) : Nat :=
  (l.filter (fun f => isGapFailure f && decide (f.operation = op) &&
    decide (f.status_code = some status) &&
    decide (gapCheckName f.title = check))).length

theorem gapCountKey_append (k : String) (l1 l2 : List RawFailure) :
    gapCountKey k (l1 ++ l2) = gapCountKey k l1 + gapCountKey k l2 := by
  simp [gapCountKey, List.filter_append]

theorem gapCountKey_eq_zero {l : List RawFailure} {k : String}
    (h : ∀ f ∈ l, isGapFailure f = false) : gapCountKey k l = 0 := by
  simp only [gapCountKey, List.length_eq_zero, List.filter_eq_nil_iff]
  intro f hf
  simp [h f hf]

/-- The per-step dedup property: starting from the set `seen`, the step
emitted at most one spec-gap finding per key, none for keys already seen,
every emitted key ends up in the final set, and the set only grows. -/
def GapStepOK (fs : List RawFailure) (seen seen2 : List String) : Prop :=
  (∀ k0 ∈ seen, k0 ∈ seen2) ∧
  ∀ k, (k ∈ seen → gapCountKey k fs = 0) ∧ gapCountKey k fs ≤ 1 ∧
    (1 ≤ gapCountKey k fs → k ∈ seen2)

theorem GapStepOK.pure {fs : List RawFailure} {seen : List String}
    (h : ∀ f ∈ fs, isGapFailure f = false) : GapStepOK fs seen seen :=
  ⟨fun _ hk => hk, fun k => by
    rw [gapCountKey_eq_zero h]
    exact ⟨fun _ => rfl, Nat.zero_le 1, fun h1 => absurd h1 (by omega)⟩⟩

theorem GapStepOK.nil (seen : List String) : GapStepOK [] seen seen :=
  GapStepOK.pure (fun f hf => absurd hf (List.not_mem_nil f))

theorem GapStepOK.single_gap {f : RawFailure} {key : String} {seen : List String}
    (hgap : isGapFailure f = true) (hkey : failureGapKey f = key)
    (hnotin : key ∉ seen) : GapStepOK [f] seen (key :: seen) := by
  refine ⟨fun k0 hk0 => List.mem_cons_of_mem key hk0, fun k => ?_⟩
  have hcount : gapCountKey k [f] = if failureGapKey f = k then 1 else 0 := by
    simp only [gapCountKey, List.filter, hgap, Bool.true_and]
    split <;> simp_all
  refine ⟨fun hk => ?_, ?_, fun h1 => ?_⟩
  · rw [hcount, if_neg]
    intro hfk
    exact hnotin (by rw [← hkey, hfk]; exact hk)
  · rw [hcount]; split <;> omega
  · rw [hcount] at h1
    by_cases hfk : failureGapKey f = k
    · rw [← hfk, hkey]; exact List.mem_cons_self key seen
    · rw [if_neg hfk] at h1; omega

theorem GapStepOK.comp {fs1 fs2 : List RawFailure} {seen seen1 seen2 : List String}
    (h1 : GapStepOK fs1 seen seen1) (h2 : GapStepOK fs2 seen1 seen2) :
    GapStepOK (fs1 ++ fs2) seen seen2 := by
  obtain ⟨hsub1, hk1⟩ := h1
  obtain ⟨hsub2, hk2⟩ := h2
  refine ⟨fun k0 hk0 => hsub2 k0 (hsub1 k0 hk0), fun k => ?_⟩
  obtain ⟨hz1, hle1, hin1⟩ := hk1 k
  obtain ⟨hz2, hle2, hin2⟩ := hk2 k
  rw [gapCountKey_append]
  refine ⟨fun hk => ?_, ?_, fun hge => ?_⟩
  · rw [hz1 hk, hz2 (hsub1 k hk)]
  · by_cases hc1 : 1 ≤ gapCountKey k fs1
    · rw [hz2 (hin1 hc1)]; omega
    · omega
  · by_cases hc2 : 1 ≤ gapCountKey k fs2
    · exact hin2 hc2
    · exact hsub2 k (hin1 (by omega))

theorem server_error_check_no_gap (input : CheckInput) :
    ∀ f ∈ server_error_check input, isGapFailure f = false := by
  intro f hf
  unfold server_error_check at hf
  split at hf <;> simp_all [make_failure, isGapFailure, gapTitles]

theorem response_time_check_no_gap (input : CheckInput) :
    ∀ f ∈ response_time_check input, isGapFailure f = false := by
  intro f hf
  unfold response_time_check at hf
  repeat split at hf
  all_goals simp_all [make_failure, isGapFailure, gapTitles]

theorem check_status_expectation_no_gap (input : CheckInput) :
    ∀ f ∈ check_status_expectation input, isGapFailure f = false := by
  intro f hf
  unfold check_status_expectation at hf
  split at hf
  · simp_all
  · rcases hexp : input.expectation with expected | declared | _ <;>
      simp only [hexp] at hf <;>
      repeat split at hf
    all_goals simp_all [make_failure, isGapFailure, gapTitles]

theorem validate_header_value_no_gap (ext : ExternalIface)
    (operation_label case_id : String) (status : Nat)
    (header_name value_str : String) (schema : Json) :
    ∀ f ∈ validate_header_value ext operation_label case_id status header_name
        value_str schema, isGapFailure f = false := by
  intro f hf
  unfold validate_header_value at hf
  rcases hc : coerce_header_value ext (((schema.get "type").bind Json.asStr).getD "")
      value_str with _ | val <;> rw [hc] at hf
  · simp_all [make_failure, isGapFailure, gapTitles]
  · rcases hv : ext.validator_for schema with _ | validate <;> rw [hv] at hf
    · simp at hf
    · split at hf <;> simp_all [make_failure, isGapFailure, gapTitles]

theorem declared_headers_check_no_gap (ext : ExternalIface) (input : CheckInput) :
    ∀ f ∈ declared_headers_check ext input, isGapFailure f = false := by
  intro f hf
  unfold declared_headers_check at hf
  split at hf
  · rcases List.mem_flatMap.mp hf with ⟨hdr, _, hmem⟩
    split at hmem
    · simp_all [make_failure, isGapFailure, gapTitles]
    · rcases hv : headerGet input.response_headers hdr.name with _ | v <;>
        rcases hs : hdr.schema with _ | sch <;>
        simp only [hv, hs] at hmem <;>
        first
        | exact validate_header_value_no_gap ext _ _ _ _ _ _ f hmem
        | simp_all
  · simp_all

theorem content_type_gap_ok_eq (input : CheckInput) (seen : List String)
    (fs : List RawFailure) (seen2 : List String)
    (heq : content_type_gap input seen = (fs, seen2)) :
    GapStepOK fs seen seen2 := by
  unfold content_type_gap at heq
  split at heq
  · split at heq
    · rcases heq with ⟨rfl, rfl⟩
      exact GapStepOK.nil seen
    · rcases heq with ⟨rfl, rfl⟩
      exact GapStepOK.single_gap
        (by simp [make_failure, isGapFailure, gapTitles]) rfl (by assumption)
  · rcases heq with ⟨rfl, rfl⟩
    exact GapStepOK.nil seen

theorem content_type_check_gap_ok_eq (input : CheckInput) (seen : List String)
    (fs : List RawFailure) (seen2 : List String)
    (heq : content_type_check input seen = (fs, seen2)) :
    GapStepOK fs seen seen2 := by
  unfold content_type_check at heq
  rcases hget : natAssocGet input.op.response_content_types input.status_code with
      _ | ts <;> rw [hget] at heq
  · exact content_type_gap_ok_eq input seen fs seen2 heq
  · rcases ts with _ | ⟨t0, ts2⟩
    · exact content_type_gap_ok_eq input seen fs seen2 (by simpa using heq)
    · rcases hct : input.content_type with _ | actual <;> rw [hct] at heq
      · simp only [List.isEmpty_cons, Bool.not_false, if_true] at heq
        rcases heq with ⟨rfl, rfl⟩
        exact GapStepOK.pure (by simp [make_failure, isGapFailure, gapTitles])
      · simp only [List.isEmpty_cons, Bool.not_false, if_true] at heq
        split at heq <;> rcases heq with ⟨rfl, rfl⟩
        · exact GapStepOK.pure (by simp [make_failure, isGapFailure, gapTitles])
        · exact GapStepOK.nil seen

theorem check_header_expectation_gap_ok_eq (ext : ExternalIface)
    (input : CheckInput) (seen : List String)
    (fs : List RawFailure) (seen2 : List String)
    (heq : check_header_expectation ext input seen = (fs, seen2)) :
    GapStepOK fs seen seen2 := by
  unfold check_header_expectation at heq
  rcases hct : content_type_check input seen with ⟨ctfs, ctseen⟩
  rw [hct] at heq
  rcases heq with ⟨rfl, rfl⟩
  exact GapStepOK.comp (content_type_check_gap_ok_eq input seen ctfs ctseen hct)
    (GapStepOK.pure (declared_headers_check_no_gap ext input))

theorem check_body_expectation_gap_ok_eq (ext : ExternalIface) (input : CheckInput)
    (seen : List String) (fs : List RawFailure) (seen2 : List String)
    (heq : check_body_expectation ext input seen = (fs, seen2)) :
    GapStepOK fs seen seen2 := by
  unfold check_body_expectation at heq
  split at heq
  · rcases heq with ⟨rfl, rfl⟩
    exact GapStepOK.pure (by simp [make_failure, isGapFailure, gapTitles])
  · rcases hget : natAssocGet input.op.response_schemas input.status_code with
        _ | schema <;> simp only [hget] at heq
    · split at heq
      · split at heq <;> rcases heq with ⟨rfl, rfl⟩
        · exact GapStepOK.nil seen
        · exact GapStepOK.single_gap
            (by simp [make_failure, isGapFailure, gapTitles]) rfl (by assumption)
      · rcases heq with ⟨rfl, rfl⟩
        exact GapStepOK.nil seen
    · split at heq
      · rcases hp : ext.parseJson input.body_text with _ | body_val <;>
          simp only [hp] at heq
        · split at heq <;> rcases heq with ⟨rfl, rfl⟩
          · exact GapStepOK.pure (by simp [make_failure, isGapFailure, gapTitles])
          · exact GapStepOK.nil seen
        · rcases hvf : ext.validator_for schema with _ | validate <;>
            simp only [hvf] at heq
          · rcases heq with ⟨rfl, rfl⟩
            exact GapStepOK.nil seen
          · split at heq <;> rcases heq with ⟨rfl, rfl⟩
            · exact GapStepOK.pure (by simp [make_failure, isGapFailure, gapTitles])
            · exact GapStepOK.nil seen
      · split at heq
        · split at heq <;> rcases heq with ⟨rfl, rfl⟩
          · exact GapStepOK.nil seen
          · exact GapStepOK.single_gap
              (by simp [make_failure, isGapFailure, gapTitles]) rfl (by assumption)
        · rcases heq with ⟨rfl, rfl⟩
          exact GapStepOK.nil seen

theorem run_checks_gap_ok (ext : ExternalIface) (input : CheckInput)
    (seen : List String) :
    GapStepOK (run_checks ext input seen).1 seen (run_checks ext input seen).2 := by
  have hpure : GapStepOK (server_error_check input ++ response_time_check input ++
      check_status_expectation input) seen seen := by
    refine GapStepOK.pure (fun f hf => ?_)
    rcases List.mem_append.mp hf with hf | hf
    · rcases List.mem_append.mp hf with hf | hf
      · exact server_error_check_no_gap input f hf
      · exact response_time_check_no_gap input f hf
    · exact check_status_expectation_no_gap input f hf
  have hhd := check_header_expectation_gap_ok_eq ext input seen
    (check_header_expectation ext input seen).1
    (check_header_expectation ext input seen).2 rfl
  have hbd := check_body_expectation_gap_ok_eq ext input
    (check_header_expectation ext input seen).2
    (check_body_expectation ext input (check_header_expectation ext input seen).2).1
    (check_body_expectation ext input (check_header_expectation ext input seen).2).2 rfl
  exact GapStepOK.comp (GapStepOK.comp hpure hhd) hbd

/-- The per-run check loop: `run_checks` applied to each case in order,
threading the shared `seen_spec_gaps` set and concatenating the findings
(the loop over cases in native/mod.rs). -/
def run_checks_all (ext : ExternalIface) (inputs : List CheckInput)
    (seen : List String) : List RawFailure × List String :=
  match inputs with
  | [] => ([], seen)
  | i :: rest =>
    let r := run_checks ext i seen
    let rest_r := run_checks_all ext rest r.2
    (r.1 ++ rest_r.1, rest_r.2)

theorem run_checks_all_gap_ok (ext : ExternalIface) (inputs : List CheckInput) :
    ∀ seen, GapStepOK (run_checks_all ext inputs seen).1 seen
      (run_checks_all ext inputs seen).2 := by
  induction inputs with
  | nil => exact fun seen => GapStepOK.nil seen
  | cons i rest ih =>
    intro seen
    exact GapStepOK.comp (run_checks_gap_ok ext i seen)
      (ih (run_checks ext i seen).2)

theorem countGapTriple_le_gapCountKey (op : String) (status : Nat)
    (check : String) (l : List RawFailure) :
    countGapTriple op status check l ≤
      gapCountKey (gap_key op status check) l := by
  unfold countGapTriple gapCountKey
  rw [← List.countP_eq_length_filter, ← List.countP_eq_length_filter]
  refine List.countP_mono_left (fun f _ hp => ?_)
  simp only [Bool.and_eq_true, decide_eq_true_eq] at hp ⊢
  obtain ⟨⟨⟨hg, hop⟩, hst⟩, hcn⟩ := hp
  refine ⟨hg, ?_⟩
  simp [failureGapKey, hop, hst, hcn]

/-- C9: across an entire run (the checks executed for each case in order,
threading the shared seen-gaps set starting empty), every
(operation, status, check) tuple of the three spec-gap kinds produces at
most one spec-gap warning. -/
theorem c9_gap_warnings_deduplicated (ext : ExternalIface)
    (inputs : List CheckInput) (op : String) (status : Nat) (check : String) :
    countGapTriple op status check (run_checks_all ext inputs []).1 ≤ 1 := by
  have hok := run_checks_all_gap_ok ext inputs []
  have hk := (hok.2 (gap_key op status check)).2.1
  exact le_trans (countGapTriple_le_gapCountKey op status check _) hk

/-! ## C10 — partiality of the integer generator -/

theorem genRangeNat_clamp_total (oracle : Nat → Nat) (idx lo hi : Nat) :
    ∃ n idx2, genRangeNat oracle idx lo (max hi lo) = some (n, idx2) := by
  refine ⟨lo + (oracle idx) % (max hi lo - lo + 1), idx + 1, ?_⟩
  unfold genRangeNat
  rw [if_pos (Nat.le_max_right hi lo)]

theorem gen_string_total (schema : Json) (oracle : Nat → Nat) (idx : Nat) :
    ∃ v idx2, gen_string schema oracle idx = some (v, idx2) := by
  obtain ⟨len, jdx, hg⟩ := genRangeNat_clamp_total oracle idx
    (match (schema.get "minLength").bind Json.asU64 with
     | some v => min v MAX_STRING_LEN
     | none => 1)
    (match (schema.get "maxLength").bind Json.asU64 with
     | some v => min v MAX_STRING_LEN
     | none => 20)
  unfold gen_string
  split
  all_goals first
  | exact ⟨_, _, rfl⟩
  | (simp only [hg]; exact ⟨_, _, rfl⟩)

theorem gen_array_count_total (schema : Json) (oracle : Nat → Nat) (idx : Nat) :
    ∃ c idx2, gen_array_count schema oracle idx = some (c, idx2) := by
  obtain ⟨c, j, hg⟩ := genRangeNat_clamp_total oracle idx
    (((schema.get "minItems").bind Json.asU64).getD 0)
    (((schema.get "maxItems").bind Json.asU64).getD 3)
  exact ⟨c, j, hg⟩

theorem gen_integer_total_of_le (schema : Json) (oracle : Nat → Nat) (idx : Nat)
    (hle : ((schema.get "minimum").bind Json.asI64).getD (-1000) ≤
      ((schema.get "maximum").bind Json.asI64).getD 1000) :
    ∃ n idx2, gen_integer schema oracle idx = some (Json.num n, idx2) := by
  unfold gen_integer
  simp only [genBool]
  by_cases hb : oracle idx % 5 = 0
  · rw [if_pos (by simp [hb])]
    split_ifs <;> exact ⟨_, _, rfl⟩
  · rw [if_neg (by simp [hb])]
    have hr : genRangeInt oracle (idx + 1)
        (((schema.get "minimum").bind Json.asI64).getD (-1000))
        (((schema.get "maximum").bind Json.asI64).getD 1000) =
        some ((((schema.get "minimum").bind Json.asI64).getD (-1000)) +
          (((oracle (idx + 1)) %
            ((((schema.get "maximum").bind Json.asI64).getD 1000 -
              ((schema.get "minimum").bind Json.asI64).getD (-1000)).toNat + 1) : Nat) :
            Int), idx + 1 + 1) := by
      unfold genRangeInt
      rw [if_pos hle]
    rw [hr]
    exact ⟨_, _, rfl⟩

theorem gen_integer_none_of_gt (schema : Json) (oracle : Nat → Nat) (idx : Nat)
    (hgt : ((schema.get "maximum").bind Json.asI64).getD 1000 <
      ((schema.get "minimum").bind Json.asI64).getD (-1000))
    (hor : oracle idx % 5 ≠ 0) :
    gen_integer schema oracle idx = none := by
  unfold gen_integer
  simp only [genBool]
  rw [if_neg (by simp [hor])]
  have hnone : genRangeInt oracle (idx + 1)
      (((schema.get "minimum").bind Json.asI64).getD (-1000))
      (((schema.get "maximum").bind Json.asI64).getD 1000) = none := by
    unfold genRangeInt
    rw [if_neg (by omega)]
  rw [hnone]

theorem generate_plain_integer (schema components : Json) (oracle : Nat → Nat)
    (idx : Nat)
    (h1 : (schema.get "$ref").bind Json.asStr = none)
    (h2 : (schema.get "enum").bind Json.asArray = none)
    (h3 : (schema.get "anyOf").bind Json.asArray = none)
    (h4 : (schema.get "oneOf").bind Json.asArray = none)
    (h5 : (schema.get "allOf").bind Json.asArray = none)
    (h6 : (schema.get "type").bind Json.asStr = some "integer") :
    generate schema components oracle idx = gen_integer schema oracle idx := by
  unfold generate
  rw [generate_inner, generate_body]
  simp only [h1, h2]
  simp only [generate_dispatch]
  simp [h3, h4, h5, h6]

/-- C10: on plain integer schemas (no ref/enum/combinator keys) `generate`
is total exactly when the resolved minimum (default −1000) does not exceed
the resolved maximum (default 1000): it then always returns an integer,
while a schema whose resolved minimum exceeds the resolved maximum — e.g.
declared minimum 2000 with no maximum — reaches `gen_range` on an empty
range in the uniform branch and panics; the string and array generators
clamp their upper bound to at least the lower bound and are total. -/
theorem c10_integer_generator_partiality :
    (∀ (schema components : Json) (oracle : Nat → Nat) (idx : Nat),
      (schema.get "$ref").bind Json.asStr = none →
      (schema.get "enum").bind Json.asArray = none →
      (schema.get "anyOf").bind Json.asArray = none →
      (schema.get "oneOf").bind Json.asArray = none →
      (schema.get "allOf").bind Json.asArray = none →
      (schema.get "type").bind Json.asStr = some "integer" →
      ((schema.get "minimum").bind Json.asI64).getD (-1000) ≤
        ((schema.get "maximum").bind Json.asI64).getD 1000 →
      ∃ n idx2, generate schema components oracle idx = some (Json.num n, idx2)) ∧
    (∀ (schema components : Json) (oracle : Nat → Nat) (idx : Nat),
      (schema.get "$ref").bind Json.asStr = none →
      (schema.get "enum").bind Json.asArray = none →
      (schema.get "anyOf").bind Json.asArray = none →
      (schema.get "oneOf").bind Json.asArray = none →
      (schema.get "allOf").bind Json.asArray = none →
      (schema.get "type").bind Json.asStr = some "integer" →
      ((schema.get "maximum").bind Json.asI64).getD 1000 <
        ((schema.get "minimum").bind Json.asI64).getD (-1000) →
      oracle idx % 5 ≠ 0 →
      generate schema components oracle idx = none) ∧
    (∀ (schema : Json) (oracle : Nat → Nat) (idx : Nat),
      ∃ v idx2, gen_string schema oracle idx = some (v, idx2)) ∧
    (∀ (schema : Json) (oracle : Nat → Nat) (idx : Nat),
      ∃ c idx2, gen_array_count schema oracle idx = some (c, idx2)) := by
  refine ⟨?_, ?_, gen_string_total, gen_array_count_total⟩
  · intro schema components oracle idx h1 h2 h3 h4 h5 h6 hle
    rw [generate_plain_integer schema components oracle idx h1 h2 h3 h4 h5 h6]
    exact gen_integer_total_of_le schema oracle idx hle
  · intro schema components oracle idx h1 h2 h3 h4 h5 h6 hgt hor
    rw [generate_plain_integer schema components oracle idx h1 h2 h3 h4 h5 h6]
    exact gen_integer_none_of_gt schema oracle idx hgt hor

/-- Evaluation of C10 at concrete schemas: `minimum 2000` (no maximum)
panics on a non-edge draw; the defaulted schema, a plain string schema and
a plain array count draw all succeed. -/
theorem c10_witness :
    generate (Json.obj [("type", Json.str "integer"), ("minimum", Json.num 2000)])
      (Json.obj []) (fun _ => 1) 0 = none ∧
    (∃ n idx2, generate (Json.obj [("type", Json.str "integer")]) (Json.obj [])
      (fun _ => 1) 0 = some (Json.num n, idx2)) ∧
    (∃ v idx2, gen_string (Json.obj [("type", Json.str "string")])
      (fun _ => 1) 0 = some (v, idx2)) ∧
    (∃ c idx2, gen_array_count (Json.obj [("type", Json.str "array")])
      (fun _ => 1) 0 = some (c, idx2)) :=
  ⟨c10_integer_generator_partiality.2.1
      (Json.obj [("type", Json.str "integer"), ("minimum", Json.num 2000)])
      (Json.obj []) (fun _ => 1) 0 rfl rfl rfl rfl rfl rfl (by decide) (by decide),
    c10_integer_generator_partiality.1
      (Json.obj [("type", Json.str "integer")])
      (Json.obj []) (fun _ => 1) 0 rfl rfl rfl rfl rfl rfl (by decide),
    c10_integer_generator_partiality.2.2.1
      (Json.obj [("type", Json.str "string")]) (fun _ => 1) 0,
    c10_integer_generator_partiality.2.2.2
      (Json.obj [("type", Json.str "array")]) (fun _ => 1) 0⟩

/-! ## C3 — `$ref` resolution in stored response schemas -/

/-- A minimal standard OpenAPI document: one GET operation whose 200
response schema is `\x7b"$ref": "#/components/schemas/Pet"\x7d`, with `Pet`
declared under components/schemas. -/
def c3_spec : Json :=
  Json.obj [
    ("components", Json.obj [
      ("schemas", Json.obj [
        ("Pet", Json.obj [("type", Json.str "integer")])])]),
    ("paths", Json.obj [
      ("/pets", Json.obj [
        ("get", Json.obj [
          ("responses", Json.obj [
            ("200", Json.obj [
              ("content", Json.obj [
                ("application/json", Json.obj [
                  ("schema", Json.obj [
                    ("$ref", Json.str "#/components/schemas/Pet")])])])])])])])])]

set_option maxRecDepth 40000 in
/-- C3: refuted — the Spec Extractor stores the 200 response schema with
the `$ref` NOT replaced, although `Pet` is present in the document's
components/schemas map.  `extract_operations` resolves against the full
`components` object while `resolve_ref` strips `#/components/schemas/` and
looks the bare name up directly, which only matches the schemas map itself
(as the claim, datagen's documented contract, and the callers in
native/mod.rs intend): resolving the same `$ref` against the schemas map
does substitute the referenced schema. -/
theorem c3_stored_ref_left_unresolved :
    (extract_operations c3_spec).map (fun op => op.response_schemas) =
      [[(200, Json.obj [("$ref", Json.str "#/components/schemas/Pet")])]] ∧
    resolve_refs (Json.obj [("$ref", Json.str "#/components/schemas/Pet")])
      (Json.obj [("schemas", Json.obj [
        ("Pet", Json.obj [("type", Json.str "integer")])])]) =
      Json.obj [("$ref", Json.str "#/components/schemas/Pet")] ∧
    resolve_refs (Json.obj [("$ref", Json.str "#/components/schemas/Pet")])
      (Json.obj [("Pet", Json.obj [("type", Json.str "integer")])]) =
      Json.obj [("type", Json.str "integer")] := by
  refine ⟨?_, ?_, ?_⟩ <;> rfl

/-! ## C4 — response header capture and enforcement -/

theorem mem_natAssocInsert {α : Type} (l : List (Nat × α)) (k : Nat) (v : α)
    (st : Nat) (x : α) (h : (st, x) ∈ natAssocInsert l k v) :
    (st = k ∧ x = v) ∨ (st, x) ∈ l := by
  induction l with
  | nil =>
    simp only [natAssocInsert, List.mem_singleton, Prod.mk.injEq] at h
    exact Or.inl h
  | cons kv rest ih =>
    rcases kv with ⟨k2, v2⟩
    simp only [natAssocInsert] at h
    split at h
    · rcases List.mem_cons.mp h with h2 | h2
      · exact Or.inl (by simpa using h2)
      · exact Or.inr (List.mem_cons_of_mem _ h2)
    · rcases List.mem_cons.mp h with h2 | h2
      · exact Or.inr (by simp [h2])
      · rcases ih h2 with h3 | h3
        · exact Or.inl h3
        · exact Or.inr (List.mem_cons_of_mem _ h3)

theorem extract_responses_step_headers (components : Json)
    (acc : List (Nat × Json) × List (Nat × List String) ×
      List (Nat × List ResponseHeader)) (kv : String × Json)
    (st : Nat) (hdrs : List ResponseHeader)
    (h : (st, hdrs) ∈ (extract_responses_step components acc kv).2.2) :
    (st, hdrs) ∈ acc.2.2 ∨
      (parseU16 kv.1 = some st ∧ extract_response_headers kv.2 = some hdrs) := by
  rcases acc with ⟨schemas, ctypes, rheaders⟩
  unfold extract_responses_step at h
  rcases hp : parseU16 kv.1 with _ | status <;> simp only [hp] at h
  · exact Or.inl h
  · rcases hh : extract_response_headers kv.2 with _ | hs <;> simp only [hh] at h
    · exact Or.inl h
    · rcases mem_natAssocInsert rheaders status hs st hdrs h with ⟨h1, h2⟩ | h2
      · subst h1
        subst h2
        exact Or.inr ⟨rfl, rfl⟩
      · exact Or.inl h2

theorem extract_responses_fold_headers (components : Json)
    (responses : List (String × Json)) :
    ∀ acc st hdrs,
      (st, hdrs) ∈ (responses.foldl (extract_responses_step components) acc).2.2 →
      (st, hdrs) ∈ acc.2.2 ∨
        ∃ kv, kv ∈ responses ∧ parseU16 kv.1 = some st ∧
          extract_response_headers kv.2 = some hdrs := by
  induction responses with
  | nil => exact fun acc st hdrs h => Or.inl h
  | cons kv rest ih =>
    intro acc st hdrs h
    rcases ih (extract_responses_step components acc kv) st hdrs h with
        h2 | ⟨kv2, hm, hp, he⟩
    · rcases extract_responses_step_headers components acc kv st hdrs h2 with
          h3 | ⟨hp, he⟩
      · exact Or.inl h3
      · exact Or.inr ⟨kv, List.mem_cons_self _ _, hp, he⟩
    · exact Or.inr ⟨kv2, List.mem_cons_of_mem _ hm, hp, he⟩

theorem extract_responses_headers_src (components : Json)
    (responses : List (String × Json)) (st : Nat) (hdrs : List ResponseHeader)
    (h : (st, hdrs) ∈ (extract_responses components responses).2.2) :
    ∃ kv, kv ∈ responses ∧ parseU16 kv.1 = some st ∧
      extract_response_headers kv.2 = some hdrs := by
  rcases extract_responses_fold_headers components responses ([], [], []) st hdrs h with
      h2 | h2
  · exact absurd h2 (List.not_mem_nil _)
  · exact h2

theorem extract_one_operation_headers (components : Json) (path : String)
    (pathItem : Json) (m : String) (operation : Json) (st : Nat)
    (hdrs : List ResponseHeader)
    (h : (st, hdrs) ∈
      (extract_one_operation components path pathItem m operation).response_headers) :
    ∃ responses kv, (operation.get "responses").bind Json.asObject = some responses ∧
      kv ∈ responses ∧ parseU16 kv.1 = some st ∧
      extract_response_headers kv.2 = some hdrs := by
  unfold extract_one_operation at h
  rcases hro : (operation.get "responses").bind Json.asObject with _ | responses <;>
    simp only [hro] at h
  · exact absurd h (List.not_mem_nil _)
  · exact ⟨responses, (extract_responses_headers_src components responses st hdrs h).choose,
      rfl, (extract_responses_headers_src components responses st hdrs h).choose_spec⟩

theorem mem_extract_operations (spec : Json) (op : Operation)
    (h : op ∈ extract_operations spec) :
    ∃ (pv : String × Json) (m : String) (operation : Json),
      op = extract_one_operation ((spec.get "components").getD Json.null)
        pv.1 pv.2 m operation := by
  unfold extract_operations at h
  rcases hp : (spec.get "paths").bind Json.asObject with _ | paths <;>
    simp only [hp] at h
  · exact absurd h (List.not_mem_nil op)
  · rcases List.mem_flatMap.mp h with ⟨pv, hpv, hop⟩
    rcases List.mem_filterMap.mp hop with ⟨m, hm, hmo⟩
    rcases hg : pv.2.get m with _ | operation <;> rw [hg] at hmo
    · simp at hmo
    · simp only [Option.some.injEq] at hmo
      exact ⟨pv, m, operation, hmo.symm⟩

/-- C4: capture — every response-header list stored on an extracted
Operation comes from a status key parsing as u16 and a response object's
`headers` map, with `required` defaulting to `false` and the value schema
optional; enforcement — a required declared header absent from the
response yields a medium HeaderSatisfyExpectation finding
"Required response header missing" in `run_checks`.
(The capture side is modelled from the spec: the `ResponseHeader` lines of
native/spec.rs are absent from the provided source.) -/
theorem c4_response_headers_capture_and_enforcement :
    (∀ (spec : Json) (op : Operation), op ∈ extract_operations spec →
      ∀ (st : Nat) (hdrs : List ResponseHeader), (st, hdrs) ∈ op.response_headers →
      ∃ (k : String) (respObj : Json) (headerFields : List (String × Json)),
        parseU16 k = some st ∧
        (respObj.get "headers").bind Json.asObject = some headerFields ∧
        hdrs = headerFields.map (fun kv =>
          { name := kv.1,
            required := ((kv.2.get "required").bind Json.asBool).getD false,
            schema := kv.2.get "schema" })) ∧
    (∀ (ext : ExternalIface) (input : CheckInput) (seen : List String)
        (hdrs : List ResponseHeader) (hdr : ResponseHeader),
      natAssocGet input.op.response_headers input.status_code = some hdrs →
      hdr ∈ hdrs → hdr.required = true →
      headerGet input.response_headers hdr.name = none →
      ∃ f, f ∈ (run_checks ext input seen).1 ∧
        f.failure_type = "HeaderSatisfyExpectation" ∧
        f.title = "Required response header missing" ∧ f.severity = "medium") := by
  constructor
  · intro spec op hop st hdrs hmem
    obtain ⟨pv, m, operation, heq⟩ := mem_extract_operations spec op hop
    subst heq
    obtain ⟨responses, kv, hro, hkv, hp, he⟩ :=
      extract_one_operation_headers _ pv.1 pv.2 m operation st hdrs hmem
    unfold extract_response_headers at he
    rcases hh : (kv.2.get "headers").bind Json.asObject with _ | headerFields <;>
      simp only [hh] at he
    · exact absurd he (by simp)
    · refine ⟨kv.1, kv.2, headerFields, hp, hh, ?_⟩
      simp only [Option.some.injEq] at he
      exact he.symm
  · intro ext input seen hdrs hdr hget hmem hreq habs
    have hf : make_failure "HeaderSatisfyExpectation" input.operation_label
        "Required response header missing"
        ("Header " ++ hdr.name ++ " is required for status " ++
          toString input.status_code ++ " but not present")
        input.case_id "medium" (some input.status_code) ∈
        declared_headers_check ext input := by
      unfold declared_headers_check
      rw [hget]
      refine List.mem_flatMap.mpr ⟨hdr, hmem, ?_⟩
      rw [if_pos (by simp [hreq, habs])]
      exact List.mem_singleton.mpr rfl
    refine ⟨make_failure "HeaderSatisfyExpectation" input.operation_label
        "Required response header missing"
        ("Header " ++ hdr.name ++ " is required for status " ++
          toString input.status_code ++ " but not present")
        input.case_id "medium" (some input.status_code), ?_, rfl, rfl, rfl⟩
    have hshape : (run_checks ext input seen).1 =
        server_error_check input ++ response_time_check input ++
        check_status_expectation input ++
        ((content_type_check input seen).1 ++ declared_headers_check ext input) ++
        (check_body_expectation ext input (content_type_check input seen).2).1 := rfl
    rw [hshape]
    exact List.mem_append.mpr (Or.inl (List.mem_append.mpr (Or.inr
      (List.mem_append.mpr (Or.inr hf)))))

/-- A spec declaring one required response header `X-Rate` with an integer
schema on the 200 response. -/
def c4_spec : Json :=
  Json.obj [
    ("paths", Json.obj [
      ("/a", Json.obj [
        ("get", Json.obj [
          ("responses", Json.obj [
            ("200", Json.obj [
              ("headers", Json.obj [
                ("X-Rate", Json.obj [
                  ("required", Json.bool true),
                  ("schema", Json.obj [("type", Json.str "integer")])])])])])])])])]

/-- The `X-Rate` header record extracted from `c4_spec`. -/
def c4w_hdr : ResponseHeader :=
  { name := "X-Rate", required := true,
    schema := some (Json.obj [("type", Json.str "integer")]) }

/-- The operation extracted from `c4_spec`. -/
def c4w_op : Operation :=
  { method := "GET", path := "/a", parameters := [],
    request_body_schema := none, expected_statuses := [200],
    response_schemas := [], response_content_types := [],
    response_headers := [(200, [c4w_hdr])] }

/-- A 200 response to `c4_spec`'s operation carrying no headers at all. -/
def c4w_input : CheckInput :=
  { status_code := 200, body_text := "", content_type := none,
    response_headers := [], elapsed := 1 / 100, url := "http://localhost/a",
    operation_label := "GET /a", case_id := "case-c4",
    expectation := StatusExpectation.AnyDeclared [200], op := c4w_op,
    response_time_limit := none }

set_option maxRecDepth 40000 in
/-- C4 witness: both parts applied to the concrete `c4_spec` document and
a concrete header-less 200 response. -/
theorem c4_witness :
    (∃ (k : String) (respObj : Json) (headerFields : List (String × Json)),
      parseU16 k = some 200 ∧
      (respObj.get "headers").bind Json.asObject = some headerFields ∧
      [c4w_hdr] = headerFields.map (fun kv =>
        { name := kv.1,
          required := ((kv.2.get "required").bind Json.asBool).getD false,
          schema := kv.2.get "schema" })) ∧
    (∃ f, f ∈ (run_checks ext0 c4w_input []).1 ∧
      f.failure_type = "HeaderSatisfyExpectation" ∧
      f.title = "Required response header missing" ∧ f.severity = "medium") :=
  ⟨c4_response_headers_capture_and_enforcement.1 c4_spec c4w_op
      (by rw [show extract_operations c4_spec = [c4w_op] from rfl]
          exact List.mem_singleton.mpr rfl)
      200 [c4w_hdr] (List.mem_singleton.mpr rfl),
   c4_response_headers_capture_and_enforcement.2 ext0 c4w_input [] [c4w_hdr] c4w_hdr
      rfl (List.mem_singleton.mpr rfl) rfl rfl⟩

/-! ## C1 — transport errors and the exit code (scenario S5) -/

/-- Scenario S5: 100 send attempts, each failing at transport level. -/
def s5_steps : List RunStep :=
  List.replicate 100
    { result := (Except.error "connection refused" : ExecResult),
      op_label := "GET /x", phase_label := "Fuzz" }

/-- The runner output of scenario S5. -/
def s5_output : SchemathesisOutput :=
  (run_accumulate s5_steps).into_output

set_option maxRecDepth 100000 in
/-- C1: refuted (code bug) — in scenario S5 every one of the 100 attempts
is a transport error and no failure finding exists, yet the run exits 0
with a Pass verdict: `main::run` has no transport-error path to exit 3
(its two early 3-returns require `total == 0` or a non-empty raw failure
list that classifies to nothing), `errors` never feed the verdict policy,
and the empty filtered failure list yields exit 0 / Pass — contradicting
the claimed "transport errors with no failure findings → 3" and the
"no false OK" rule. -/
theorem c1_s5_transport_errors_pass :
    s5_output.total = 100 ∧ s5_output.success = 0 ∧ s5_output.failures = [] ∧
    s5_output.errors.length = 100 ∧
    (main_run s5_output false SuccessCriteria.Default none).exit_code = 0 ∧
    ((main_run s5_output false SuccessCriteria.Default none).verdict.map
      (fun v => v.status)) = some VerdictStatus.Pass := by
  refine ⟨?_, ?_, ?_, ?_, ?_, ?_⟩ <;> rfl

/-! ## C2 — verdict status versus success == total -/

theorem classify_failures_length (output : SchemathesisOutput) :
    (classify_failures output).length = output.failures.length := by
  simp [classify_failures]

theorem analyze_default_warning_not_failure (ints : List RawInteraction)
    (mr : Option Rat) :
    ∀ w ∈ (analyze ints SuccessCriteria.Default mr).warnings, w.is_failure = false := by
  intro w hw
  unfold analyze at hw
  simp only [] at hw
  rcases List.mem_flatMap.mp hw with ⟨op, hop, hwop⟩
  rcases hd : detect_pattern op with _ | kind <;> simp only [hd] at hwop
  · exact absurd hwop (List.not_mem_nil w)
  · simp only [List.mem_singleton] at hwop
    subst hwop
    rfl

theorem main_run_default_eq (output : SchemathesisOutput) (strict : Bool)
    (mr : Option Rat) (htot : ¬ output.total = 0)
    (hfc : output.failure_count = output.failures.length) :
    main_run output strict SuccessCriteria.Default mr =
      { exit_code :=
          (({ VerdictPolicy.default with strict := strict } : VerdictPolicy).verdict
            (({ VerdictPolicy.default with strict := strict } : VerdictPolicy).filter
              (classify_failures output))).exit_code,
        verdict :=
          some (({ VerdictPolicy.default with strict := strict } : VerdictPolicy).verdict
            (({ VerdictPolicy.default with strict := strict } : VerdictPolicy).filter
              (classify_failures output))) } := by
  unfold main_run
  rw [if_neg htot]
  have hguard : ¬ (output.failure_count > 0 ∧
      (classify_failures output).isEmpty = true) := by
    rintro ⟨h1, h2⟩
    rw [List.isEmpty_iff_length_eq_zero, classify_failures_length] at h2
    omega
  rw [if_neg hguard]
  have hany : (analyze output.interactions SuccessCriteria.Default mr).warnings.any
      (fun w => w.is_failure) = false := by
    rw [List.any_eq_false]
    intro w hw
    simp [analyze_default_warning_not_failure output.interactions mr w hw]
  simp only [hany, Bool.false_eq_true, false_and, if_false, ne_eq,
    not_true_eq_false, ite_false]

/-- C2 (amended): for a run with at least one request and a consistent
failure count, the verdict status is Pass precisely when the
policy-filtered classified failures carry exit code 0 — not when
`success == total`: transport errors and below-threshold findings leave
the verdict Pass even though `success < total`. -/
theorem c2_pass_iff_filtered_exit_zero (output : SchemathesisOutput)
    (strict : Bool) (mr : Option Rat) (htot : ¬ output.total = 0)
    (hfc : output.failure_count = output.failures.length) :
    ∃ v, (main_run output strict SuccessCriteria.Default mr).verdict = some v ∧
      (v.status = VerdictStatus.Pass ↔
        ({ VerdictPolicy.default with strict := strict } : VerdictPolicy).exit_code
          (({ VerdictPolicy.default with strict := strict } : VerdictPolicy).filter
            (classify_failures output)) = 0) := by
  rw [main_run_default_eq output strict mr htot hfc]
  refine ⟨_, rfl, ?_⟩
  unfold VerdictPolicy.verdict
  by_cases h : ({ VerdictPolicy.default with strict := strict } : VerdictPolicy).exit_code
      (({ VerdictPolicy.default with strict := strict } : VerdictPolicy).filter
        (classify_failures output)) = 0 <;>
    simp [h]

/-- A one-step run: the single request succeeds at transport level but
carries one low-severity finding. -/
def c2_steps : List RunStep :=
  [{ result := Except.ok (c8w_interaction "case-b" [c8w_failure], [c8w_failure]),
     op_label := "GET /health", phase_label := "random" }]

/-- The runner output of the one-step run. -/
def c2_output : SchemathesisOutput :=
  (run_accumulate c2_steps).into_output

/-- C2 counterexample: a run with `total = 1 > 0` and `success = 0 ≠ total`
(the request produced a failure finding) whose verdict status is
nevertheless Pass — the low-severity finding is filtered below the
`min_severity = Warning` policy bar, the filtered list is empty, and
`VerdictPolicy::verdict` passes on exit code 0.  This refutes
"Pass iff total > 0 and success == total". -/
theorem c2_counterexample :
    c2_output.total > 0 ∧ c2_output.success ≠ c2_output.total ∧
    ((main_run c2_output false SuccessCriteria.Default none).verdict.map
      (fun v => v.status)) = some VerdictStatus.Pass := by
  refine ⟨?_, ?_, ?_⟩ <;> decide

/-- C2 witness: the amended theorem applied to the concrete one-step run. -/
theorem c2_witness :
    ∃ v, (main_run c2_output false SuccessCriteria.Default none).verdict = some v ∧
      (v.status = VerdictStatus.Pass ↔
        ({ VerdictPolicy.default with strict := false } : VerdictPolicy).exit_code
          (({ VerdictPolicy.default with strict := false } : VerdictPolicy).filter
            (classify_failures c2_output)) = 0) :=
  c2_pass_iff_filtered_exit_zero c2_output false none (by decide) (by decide)
